import Mathlib

/-!
# BullBearPK recommendation pipeline: a shallow embedding

This file embeds the pipeline-relevant code of the BullBearPK backend in
Lean 4 and proves properties of the embedding.  Numeric fields are modelled
as rationals (the Python source computes with floats; all thresholds and
weights in the source are exact decimals, so the rational model preserves
every comparison in the code), database rows and Python dicts as structures
or association lists, and each external effect (scraping, database I/O) as
an explicit environment value threaded through the orchestrator.

Sources embedded:
* `backend/agents/advanced_stock_analyzer.py` (oscillators, performance
  score, ranking),
* `backend/agents/news_analyzer.py` (sentiment aggregation),
* `backend/agents/recommendation_agent.py` (recommendation synthesis),
* `backend/agents/risk_checker.py` (risk profiling),
* `backend/database_config.py` (`save_user_form_submission`,
  `compare_recommendations`),
* `backend/agentic_framework.py` (stage wrappers and `run_workflow`).
-/

/-- A scraped per-symbol market record: the dict produced by the stock
scraper and consumed by `AdvancedStockAnalyzer` (fields of
`stock_data` in `advanced_stock_analyzer.py`). -/
structure Stock where
  code : String
  name : String
  sector : String
  open_price : ℚ
  high_price : ℚ
  low_price : ℚ
  close_price : ℚ
  volume : ℤ
  change_amount : ℚ
  change_percent : ℚ
deriving DecidableEq, Repr

/-- `AdvancedStockAnalyzer._calculate_rsi`: a bounded oscillator computed
from `change_percent` alone.  Positive change gives `50 + min(cp*3, 50)`
capped at 100; otherwise `50 + max(cp*3, -50)` floored at 0. -/
def calculate_rsi (s : Stock) : ℚ :=
  if s.change_percent > 0 then
    min (50 + min (s.change_percent * 3) 50) 100
  else
    max (50 + max (s.change_percent * 3) (-50)) 0

/-- `AdvancedStockAnalyzer._calculate_stochastic`: `%K` from the
high/low/close relationship, with the fixed neutral value 50 when
`high == low` (avoiding division by zero); the `%D` line is a copy of
`%K` in the source ("Simplified D line"). -/
def calculate_stochastic (s : Stock) : ℚ × ℚ :=
  let k :=
    if s.high_price ≠ s.low_price then
      (s.close_price - s.low_price) / (s.high_price - s.low_price) * 100
    else 50
  (k, k)

/-- `AdvancedStockAnalyzer._calculate_williams_r`: Williams %R from the
high/low/close relationship, with the fixed neutral value -50 when
`high == low`. -/
def calculate_williams_r (s : Stock) : ℚ :=
  if s.high_price ≠ s.low_price then
    (s.high_price - s.close_price) / (s.high_price - s.low_price) * (-100)
  else -50

/-- `AdvancedStockAnalyzer._calculate_volume_analysis`, reduced to the one
field the performance score reads: `volume_ratio = volume / volume_sma`
where `volume_sma = volume * 1.1`, or `1.0` when `volume_sma ≤ 0`. -/
def volume_ratio (s : Stock) : ℚ :=
  let volume_sma : ℚ := (s.volume : ℚ) * 1.1
  if volume_sma > 0 then (s.volume : ℚ) / volume_sma else 1

/-- `AdvancedStockAnalyzer._calculate_advanced_analytics`, reduced to the
`sharpe_ratio` field read by the performance score:
`change_percent / max(|change_percent| * 0.1, 0.1)`. -/
def sharpe_ratio (s : Stock) : ℚ :=
  s.change_percent / max (|s.change_percent| * 0.1) 0.1

/-- The 95% normal quantile constant `scipy.stats.norm.ppf(0.95)` used by
`_calculate_risk_metrics` (the external library value, fixed). -/
def norm_ppf_95 : ℚ := 1.6448536269514722

/-- `AdvancedStockAnalyzer._calculate_risk_metrics`, reduced to the
`value_at_risk` field read by the performance score.  `volatility` is
`(high - low) / close * 100`; a zero `close_price` raises
`ZeroDivisionError` in the source, caught by the function's own `except`
which returns the zero defaults. -/
def value_at_risk (s : Stock) : ℚ :=
  if s.close_price = 0 then 0
  else
    let volatility := (s.high_price - s.low_price) / s.close_price * 100
    |s.change_percent| + volatility * norm_ppf_95

/-- The weighted sum inside
`AdvancedStockAnalyzer._calculate_comprehensive_performance_score`:
change magnitude (30%), RSI distance from neutral (25%), capped volume
ratio (20%), clamped Sharpe ratio (15%) and an inverse value-at-risk term
(10%). -/
def performance_total (s : Stock) : ℚ :=
  let rsi := calculate_rsi s
  let base_score := |s.change_percent| * 0.3
  let rsi_score := (50 - |rsi - 50|) / 50 * 0.25
  let volume_score := min (volume_ratio s) 2.0 * 0.2
  let sharpe_score := min (max (sharpe_ratio s) 0) 10 / 10 * 0.15
  let risk_score := max 0 (1 - value_at_risk s / 100) * 0.1
  base_score + rsi_score + volume_score + sharpe_score + risk_score

/-- The bonus multipliers of the performance score: 1.2x for positive
change, then 1.1x for volume above 1,000,000. -/
def performance_with_bonuses (s : Stock) : ℚ :=
  let t1 := performance_total s
  let t2 := if s.change_percent > 0 then t1 * 1.2 else t1
  if s.volume > 1000000 then t2 * 1.1 else t2

/-- `AdvancedStockAnalyzer._calculate_comprehensive_performance_score`:
the bonus-adjusted weighted sum, scaled by 100 and capped at 100. -/
def calculate_comprehensive_performance_score (s : Stock) : ℚ :=
  min (performance_with_bonuses s * 100) 100.0

/-! ## News analyzer (`backend/agents/news_analyzer.py`) -/

/-- A row of the `news_records` table as consumed by
`AdvancedNewsAnalyzer.analyze_news_for_company`.  `polarity` and
`subjectivity` are the TextBlob sentiment outputs for `title + " " +
summary`; TextBlob is an external library, so its outputs are modelled as
data carried by the record. -/
structure NewsRecord where
  title : String
  summary : String
  polarity : ℚ
  subjectivity : ℚ
  confidence_score : ℚ
  financial_impact : String
deriving DecidableEq, Repr

/-- `AdvancedNewsAnalyzer.analyze_sentiment_advanced`, after the TextBlob
call: polarity/subjectivity thresholds classify the item as positive,
negative or neutral with an item score. -/
def analyze_sentiment_advanced (r : NewsRecord) : String × ℚ :=
  if r.polarity > 0.2 ∧ r.subjectivity > 0.3 then ("positive", r.polarity)
  else if r.polarity < -0.2 ∧ r.subjectivity > 0.3 then ("negative", |r.polarity|)
  else ("neutral", 0)

/-- Lowercasing, as Python's `str.lower()` restricted to ASCII (the
keyword sets are ASCII). -/
def lower_str (s : String) : String := String.mk (s.data.map Char.toLower)

/-- `needle` starts `haystack` (helper for substring containment). -/
def starts_with_chars : List Char → List Char → Bool
  | [], _ => true
  | _ :: _, [] => false
  | k :: ks, t :: ts => k = t && starts_with_chars ks ts

/-- Python's `needle in haystack` substring test on char lists. -/
def contains_chars (needle : List Char) : List Char → Bool
  | [] => needle.isEmpty
  | t :: ts => starts_with_chars needle (t :: ts) || contains_chars needle ts

/-- Python's `keyword in text_lower` membership test. -/
def contains_keyword (text kw : String) : Bool :=
  contains_chars kw.data (lower_str text).data

/-- `AdvancedNewsAnalyzer.risk_keywords` (a Python set literal; drawn here
in source order with the duplicated elements collapsed, as a set holds each
element once). -/
def risk_keywords : List String :=
  ["bankruptcy", "default", "debt", "loss", "decline", "downturn", "recession",
   "crisis", "scandal", "investigation", "penalty", "fine", "suspension",
   "delisting", "insolvency", "liquidation", "restructuring", "layoffs",
   "shutdown", "fraud", "corruption", "lawsuit"]

/-- `AdvancedNewsAnalyzer.opportunity_keywords` (set literal, duplicates
collapsed). -/
def opportunity_keywords : List String :=
  ["growth", "expansion", "profit", "success", "award", "recognition",
   "partnership", "contract", "deal", "investment", "funding", "innovation",
   "technology", "digital", "efficiency", "sustainability", "merger",
   "acquisition", "ipo", "dividend", "revenue", "earnings"]

/-- The result dataclass `NewsAnalysisResult` of `news_analyzer.py`
(the timestamp field, a wall-clock read, is omitted). -/
structure NewsAnalysisResult where
  stock_code : String
  overall_sentiment : String
  sentiment_score : ℚ
  news_count : ℕ
  positive_news : ℕ
  negative_news : ℕ
  neutral_news : ℕ
  key_events : List String
  risk_factors : List String
  opportunities : List String
  recommendation : String
  confidence : ℚ
  analysis_summary : String
deriving DecidableEq, Repr

/-- `AdvancedNewsAnalyzer._generate_recommendation`: the fixed rule table
keyed on the overall sentiment, the aggregate score and whether
opportunities outnumber risk factors. -/
def generate_news_recommendation (overall_sentiment : String)
    (sentiment_score : ℚ) (risk_factors opportunities : List String)
    (avg_confidence : ℚ) : String × ℚ :=
  if overall_sentiment = "bullish" then
    if sentiment_score > 0.7 ∧ opportunities.length > risk_factors.length then
      ("Strong buy recommendation based on positive news sentiment and growth opportunities.",
       min 0.9 (avg_confidence + 0.2))
    else
      ("Buy recommendation based on positive news sentiment.",
       min 0.8 (avg_confidence + 0.1))
  else if overall_sentiment = "bearish" then
    if sentiment_score < -0.7 ∧ risk_factors.length > opportunities.length then
      ("Strong sell recommendation due to negative news sentiment and risk factors.",
       min 0.9 (avg_confidence + 0.2))
    else
      ("Sell recommendation based on negative news sentiment.",
       min 0.8 (avg_confidence + 0.1))
  else
    if opportunities.length > risk_factors.length then
      ("Hold with potential for growth based on mixed news sentiment.",
       min 0.7 avg_confidence)
    else
      ("Hold with caution due to mixed news sentiment.",
       min 0.6 avg_confidence)

/-- `AdvancedNewsAnalyzer._generate_analysis_summary`: `" | "`-joined
summary parts. -/
def generate_analysis_summary (stock_code : String) (n : ℕ)
    (overall_sentiment : String) (pos neg neu : ℕ)
    (key_events risk_factors opportunities : List String) : String :=
  let base :=
    ["Advanced news analysis for " ++ stock_code ++ ":",
     "Analyzed " ++ toString n ++ " news articles",
     "Overall sentiment: " ++ overall_sentiment,
     "News distribution: " ++ toString pos ++ " positive, " ++ toString neg ++
       " negative, " ++ toString neu ++ " neutral"]
  let base := base ++ (if key_events ≠ [] then
    ["Key high-impact events: " ++ toString key_events.length] else [])
  let base := base ++ (if risk_factors ≠ [] then
    ["Risk factors identified: " ++ toString risk_factors.length] else [])
  let base := base ++ (if opportunities ≠ [] then
    ["Growth opportunities: " ++ toString opportunities.length] else [])
  String.intercalate " | " base

/-- The per-record text Python analyzes: `f"{title} {summary}"`. -/
def news_text (r : NewsRecord) : String := r.title ++ " " ++ r.summary

/-- Positive-classified article count. -/
def positive_count (records : List NewsRecord) : ℕ :=
  (records.map (fun r => (analyze_sentiment_advanced r).1)).count "positive"

/-- Negative-classified article count. -/
def negative_count (records : List NewsRecord) : ℕ :=
  (records.map (fun r => (analyze_sentiment_advanced r).1)).count "negative"

/-- Neutral-classified article count. -/
def neutral_count (records : List NewsRecord) : ℕ :=
  (records.map (fun r => (analyze_sentiment_advanced r).1)).count "neutral"

/-- The positive-article ratio of a news batch. -/
def positive_ratio (records : List NewsRecord) : ℚ :=
  (positive_count records : ℚ) / (records.length : ℚ)

/-- The negative-article ratio of a news batch. -/
def negative_ratio (records : List NewsRecord) : ℚ :=
  (negative_count records : ℚ) / (records.length : ℚ)

/-- The overall-sentiment rule of `analyze_news_for_company`: `bullish`
when the positive ratio beats the negative ratio and 0.4, `bearish`
symmetrically, else `neutral`. -/
def overall_sentiment_of (records : List NewsRecord) : String :=
  if positive_ratio records > negative_ratio records ∧ positive_ratio records > 0.4
  then "bullish"
  else if negative_ratio records > positive_ratio records ∧
      negative_ratio records > 0.4 then "bearish"
  else "neutral"

/-- The aggregate sentiment score of `analyze_news_for_company`: the
positive ratio when bullish, the negated negative ratio when bearish,
0.0 when neutral. -/
def sentiment_score_of (records : List NewsRecord) : ℚ :=
  if positive_ratio records > negative_ratio records ∧ positive_ratio records > 0.4
  then positive_ratio records
  else if negative_ratio records > positive_ratio records ∧
      negative_ratio records > 0.4 then -negative_ratio records
  else 0

/-- `AdvancedNewsAnalyzer.analyze_news_for_company`.  Zero news records is
a first-class state yielding the neutral, zero-confidence result.  For a
non-empty list, per-item sentiments are counted, the overall sentiment is
derived from the positive/negative ratios, keyword matches are
deduplicated and capped at 5 (Python materialises `list(set(...))` in an
unspecified order; the embedding keeps first-occurrence order, which no
downstream consumer inspects), and the recommendation text comes from the
fixed rule table. -/
def analyze_news_for_company (records : List NewsRecord) (code : String) :
    NewsAnalysisResult :=
  if records = [] then
    { stock_code := code
      overall_sentiment := "neutral"
      sentiment_score := 0
      news_count := 0
      positive_news := 0
      negative_news := 0
      neutral_news := 0
      key_events := []
      risk_factors := []
      opportunities := []
      recommendation := "No recent news available for analysis."
      confidence := 0
      analysis_summary := "No news data available for this company." }
  else
    let pos := positive_count records
    let neg := negative_count records
    let neu := neutral_count records
    let total_confidence := (records.map (·.confidence_score)).sum
    let key_events :=
      ((records.filter (fun r => r.financial_impact = "high")).map (·.title)).dedup.take 5
    let risk_factors :=
      (records.flatMap (fun r =>
        risk_keywords.filter (fun k => contains_keyword (news_text r) k))).dedup.take 5
    let opportunities :=
      (records.flatMap (fun r =>
        opportunity_keywords.filter (fun k => contains_keyword (news_text r) k))).dedup.take 5
    let overall_sentiment := overall_sentiment_of records
    let sentiment_score := sentiment_score_of records
    let avg_confidence := total_confidence / (records.length : ℚ)
    let rec_conf := generate_news_recommendation overall_sentiment sentiment_score
      risk_factors opportunities avg_confidence
    { stock_code := code
      overall_sentiment := overall_sentiment
      sentiment_score := sentiment_score
      news_count := records.length
      positive_news := pos
      negative_news := neg
      neutral_news := neu
      key_events := key_events
      risk_factors := risk_factors
      opportunities := opportunities
      recommendation := rec_conf.1
      confidence := rec_conf.2
      analysis_summary := generate_analysis_summary code records.length
        overall_sentiment pos neg neu key_events risk_factors opportunities }

/-! ## Analyzer output and ranking
(`analyze_stocks_advanced_agentic` in `advanced_stock_analyzer.py`) -/

/-- The per-stock analysis dict flowing from the analyzer into the
pipeline state, restricted to the fields the downstream pipeline reads
(the ranking reads `performance_score`; the recommendation agent reads
`stock_code`, `stock_name`, `sector`, `confidence_score` and
`momentum`). -/
structure Analysis where
  stock_code : String
  stock_name : String
  sector : String
  confidence_score : ℚ
  momentum : ℚ
  performance_score : ℚ
deriving DecidableEq, Repr

/-- The descending-by-`performance_score` ordering used by
`filtered_stocks.sort(key=..., reverse=True)`. -/
def perf_ge (a b : Analysis) : Prop :=
  b.performance_score ≤ a.performance_score

instance : DecidableRel perf_ge :=
  fun a b => inferInstanceAs (Decidable (b.performance_score ≤ a.performance_score))

instance : IsTotal Analysis perf_ge :=
  ⟨fun a b => le_total b.performance_score a.performance_score⟩

instance : IsTrans Analysis perf_ge :=
  ⟨fun _ _ _ h1 h2 => le_trans h2 h1⟩

/-- Python's `list.sort(key=lambda x: x['performance_score'],
reverse=True)` is a stable descending sort; insertion sort with the
non-strict descending order is extensionally that sort. -/
def sort_by_performance (l : List Analysis) : List Analysis :=
  List.insertionSort perf_ge l

/-- `analyze_stocks_advanced_agentic`: sort by performance score, take the
top 10, and assign `rank` by `enumerate(top_performers, 1)` (modelled as a
zip with `[1..n]`). -/
def rank_top_performers (l : List Analysis) : List (Analysis × ℕ) :=
  let top := (sort_by_performance l).take 10
  top.zip (List.range' 1 top.length)

/-! ## Recommendation synthesis
(`RecommendationAgent.generate_recommendations` in
`recommendation_agent.py`) -/

/-- A recommendation dict, restricted to the fields the diffing and
persistence code reads. -/
structure Recommendation where
  stock_code : String
  stock_name : String
  sector : String
  recommendation_type : String
  confidence_score : ℚ
  expected_return : ℚ
  risk_level : String
deriving DecidableEq, Repr

/-- Python dict lookup on an association list built by repeated insertion:
the value is the last binding for the key. -/
def lookup_last {α : Type} (l : List (String × α)) (s : String) : Option α :=
  ((l.filter (fun p => p.1 = s)).getLast?).map (·.2)

/-- The sentiment score the recommendation agent uses for a symbol:
`news_analysis.get(stock_code, {})` followed by
`.get('sentiment_score', 0.5)` — i.e. the stored profile's score, or 0.5
when the symbol has no profile. -/
def sentiment_score_for (news : List (String × NewsAnalysisResult))
    (code : String) : ℚ :=
  match lookup_last news code with
  | some a => a.sentiment_score
  | none => 0.5

/-- The body of the per-stock loop in
`RecommendationAgent.generate_recommendations`: the risk-adjusted score
`0.6 × technical confidence + 0.4 × sentiment score`, the recommendation
type and risk level threshold chains, and `expected_return = momentum ×
100`. -/
def build_recommendation (news : List (String × NewsAnalysisResult))
    (a : Analysis) : Recommendation :=
  let technical_score := a.confidence_score
  let sentiment_score := sentiment_score_for news a.stock_code
  let risk_adjusted_score := technical_score * 0.6 + sentiment_score * 0.4
  let recommendation_type :=
    if risk_adjusted_score > 0.8 then "strong_buy"
    else if risk_adjusted_score > 0.6 then "buy"
    else if risk_adjusted_score > 0.4 then "hold"
    else "sell"
  let risk_level :=
    if risk_adjusted_score < 0.4 then "high"
    else if risk_adjusted_score < 0.7 then "medium"
    else "low"
  { stock_code := a.stock_code
    stock_name := a.stock_name
    sector := a.sector
    recommendation_type := recommendation_type
    confidence_score := risk_adjusted_score
    expected_return := a.momentum * 100
    risk_level := risk_level }

/-- The descending-by-`confidence_score` ordering used by
`recommendations.sort(key=lambda x: x['confidence_score'],
reverse=True)`. -/
def conf_ge (a b : Recommendation) : Prop :=
  b.confidence_score ≤ a.confidence_score

instance : DecidableRel conf_ge :=
  fun a b => inferInstanceAs (Decidable (b.confidence_score ≤ a.confidence_score))

instance : IsTotal Recommendation conf_ge :=
  ⟨fun a b => le_total b.confidence_score a.confidence_score⟩

instance : IsTrans Recommendation conf_ge :=
  ⟨fun _ _ _ h1 h2 => le_trans h2 h1⟩

/-- `RecommendationAgent.generate_recommendations`, pure core: build one
recommendation per top-5 analysis and sort descending by confidence score
(the surrounding database writes are effects whose failures the agent
swallows; they are modelled at the orchestrator level). -/
def generate_recommendations (stock_analysis : List Analysis)
    (news_analysis : List (String × NewsAnalysisResult)) :
    List Recommendation :=
  List.insertionSort conf_ge
    ((stock_analysis.take 5).map (build_recommendation news_analysis))

/-! ## Recommendation diffing
(`DatabaseConfig.compare_recommendations` in `database_config.py`) -/

/-- The keys of the Python dict `{rec['stock_code']: rec for rec in recs}`
in insertion order: first occurrence of each code. -/
def rec_codes (recs : List Recommendation) : List String :=
  (recs.map (·.stock_code)).dedup

/-- The value the Python dict comprehension stores for a code: the last
record in the list with that code. -/
def lookup_rec (recs : List Recommendation) (s : String) : Option Recommendation :=
  (recs.filter (fun r => r.stock_code = s)).getLast?

/-- The `changed` test of `compare_recommendations`: a different
recommendation type, or a confidence delta exceeding 0.1. -/
def is_changed_pair (o n : Recommendation) : Bool :=
  decide (o.recommendation_type ≠ n.recommendation_type ∨
    |o.confidence_score - n.confidence_score| > 0.1)

/-- Entry of the `new_recommendations` partition. -/
structure NewEntry where
  stock_code : String
  recommendation : String
  confidence : ℚ
  reason : String
deriving DecidableEq, Repr

/-- Entry of the `removed_recommendations` partition. -/
structure RemovedEntry where
  stock_code : String
  old_recommendation : String
  reason : String
deriving DecidableEq, Repr

/-- Entry of the `changed_recommendations` partition. -/
structure ChangedEntry where
  stock_code : String
  old_recommendation : String
  new_recommendation : String
  old_confidence : ℚ
  new_confidence : ℚ
  reason : String
deriving DecidableEq, Repr

/-- Entry of the `unchanged_recommendations` partition. -/
structure UnchangedEntry where
  stock_code : String
  recommendation : String
  confidence : ℚ
deriving DecidableEq, Repr

/-- The four partitions returned by `compare_recommendations`. -/
structure Changes where
  new_recommendations : List NewEntry
  removed_recommendations : List RemovedEntry
  changed_recommendations : List ChangedEntry
  unchanged_recommendations : List UnchangedEntry
deriving DecidableEq, Repr

/-- `DatabaseConfig._generate_change_reason` (the Python `:.1%` number
formatting inside the strings is presentational and omitted from the
embedded text). -/
def generate_change_reason (o n : Recommendation) : String :=
  if o.recommendation_type = n.recommendation_type then
    if n.confidence_score > o.confidence_score then "Confidence increased"
    else "Confidence decreased"
  else if (n.recommendation_type = "strong_buy" ∨ n.recommendation_type = "buy") ∧
      (o.recommendation_type = "hold" ∨ o.recommendation_type = "sell") then
    "Upgraded due to improved market conditions and analysis"
  else if (n.recommendation_type = "hold" ∨ n.recommendation_type = "sell") ∧
      (o.recommendation_type = "strong_buy" ∨ o.recommendation_type = "buy") then
    "Downgraded due to changing market conditions"
  else
    "Recommendation adjusted based on updated analysis"

/-- `compare_recommendations`: symbols only in the new set. -/
def new_partition (old_recs new_recs : List Recommendation) : List NewEntry :=
  ((rec_codes new_recs).filter (fun s => ¬ s ∈ rec_codes old_recs)).filterMap
    (fun s => (lookup_rec new_recs s).map (fun nr =>
      { stock_code := s
        recommendation := nr.recommendation_type
        confidence := nr.confidence_score
        reason := "New recommendation based on updated analysis" }))

/-- `compare_recommendations`: symbols only in the old set. -/
def removed_partition (old_recs new_recs : List Recommendation) : List RemovedEntry :=
  ((rec_codes old_recs).filter (fun s => ¬ s ∈ rec_codes new_recs)).filterMap
    (fun s => (lookup_rec old_recs s).map (fun orec =>
      { stock_code := s
        old_recommendation := orec.recommendation_type
        reason := "No longer recommended based on current analysis" }))

/-- `compare_recommendations`: symbols in both sets whose type changed or
whose confidence moved by more than 0.1. -/
def changed_partition (old_recs new_recs : List Recommendation) : List ChangedEntry :=
  ((rec_codes old_recs).filter (fun s => s ∈ rec_codes new_recs)).filterMap
    (fun s => (lookup_rec old_recs s).bind (fun o => (lookup_rec new_recs s).bind
      (fun n => if is_changed_pair o n then
        some { stock_code := s
               old_recommendation := o.recommendation_type
               new_recommendation := n.recommendation_type
               old_confidence := o.confidence_score
               new_confidence := n.confidence_score
               reason := generate_change_reason o n }
        else none)))

/-- `compare_recommendations`: symbols in both sets that did not change. -/
def unchanged_partition (old_recs new_recs : List Recommendation) : List UnchangedEntry :=
  ((rec_codes old_recs).filter (fun s => s ∈ rec_codes new_recs)).filterMap
    (fun s => (lookup_rec old_recs s).bind (fun o => (lookup_rec new_recs s).bind
      (fun n => if is_changed_pair o n then none
        else some { stock_code := s
                    recommendation := n.recommendation_type
                    confidence := n.confidence_score })))

/-- `DatabaseConfig.compare_recommendations`: the old/new sets keyed by
symbol, partitioned into new / removed / changed / unchanged. -/
def compare_recommendations (old_recs new_recs : List Recommendation) : Changes :=
  { new_recommendations := new_partition old_recs new_recs
    removed_recommendations := removed_partition old_recs new_recs
    changed_recommendations := changed_partition old_recs new_recs
    unchanged_recommendations := unchanged_partition old_recs new_recs }

/-- The symbol appears in the `new` partition. -/
def in_new (c : Changes) (s : String) : Prop :=
  ∃ e ∈ c.new_recommendations, e.stock_code = s

/-- The symbol appears in the `removed` partition. -/
def in_removed (c : Changes) (s : String) : Prop :=
  ∃ e ∈ c.removed_recommendations, e.stock_code = s

/-- The symbol appears in the `changed` partition. -/
def in_changed (c : Changes) (s : String) : Prop :=
  ∃ e ∈ c.changed_recommendations, e.stock_code = s

/-- The symbol appears in the `unchanged` partition. -/
def in_unchanged (c : Changes) (s : String) : Prop :=
  ∃ e ∈ c.unchanged_recommendations, e.stock_code = s

/-! ## Risk profiler (`backend/agents/risk_checker.py`) -/

/-- A row of the user's investment history as read by the risk checker.
`holding_days` models the parsed `sell_date - buy_date` difference: it is
present exactly when both dates are present and parse (the source skips
the record for the holding-period average otherwise). -/
structure Investment where
  status : String
  sector : String
  amount_invested : ℚ
  realized_pnl : ℚ
  current_value : ℚ
  holding_days : Option ℤ
deriving DecidableEq, Repr

/-- The behavior-analysis dict returned by
`RiskChecker._analyze_investment_behavior`, restricted to its numeric
fields (the derived label strings `risk_tolerance_indicator` and
`trading_frequency` are not read by the risk score). -/
structure BehaviorAnalysis where
  total_trades : ℕ
  avg_trade_size : ℚ
  holding_period_avg : ℚ
  profit_loss_ratio : ℚ
  sector_diversification : ℚ
  behavior_score : ℚ
deriving DecidableEq, Repr

/-- `RiskChecker._analyze_investment_behavior`: win rate, average holding
period (capped at one year inside the score), sector diversification, and
the blended behavior score; an empty history yields the fixed moderate
defaults. -/
def analyze_investment_behavior (hist : List Investment) : BehaviorAnalysis :=
  if hist = [] then
    { total_trades := 0, avg_trade_size := 0, holding_period_avg := 0
      profit_loss_ratio := 0, sector_diversification := 0, behavior_score := 0.5 }
  else
    let total_trades := hist.length
    let total_invested := (hist.map (·.amount_invested)).sum
    let avg_trade_size := total_invested / (total_trades : ℚ)
    let holding_periods := hist.filterMap (·.holding_days)
    let holding_period_avg : ℚ :=
      if holding_periods ≠ [] then
        ((holding_periods.map (fun d => (d : ℚ))).sum) / (holding_periods.length : ℚ)
      else 0
    let profit_loss_ratio : ℚ :=
      ((hist.filter (fun i => i.realized_pnl > 0)).length : ℚ) / (total_trades : ℚ)
    let sector_diversification : ℚ :=
      ((hist.map (·.sector)).dedup.length : ℚ) / ((max total_trades 1 : ℕ) : ℚ)
    let behavior_score :=
      profit_loss_ratio * 0.4 + min (holding_period_avg / 365) 1 * 0.3 +
        sector_diversification * 0.3
    { total_trades := total_trades, avg_trade_size := avg_trade_size
      holding_period_avg := holding_period_avg
      profit_loss_ratio := profit_loss_ratio
      sector_diversification := sector_diversification
      behavior_score := behavior_score }

/-- The portfolio dict fields read by `RiskChecker._analyze_portfolio_risk`. -/
structure PortfolioData where
  total_value : ℚ
  total_profit_loss : ℚ
  cash_balance : ℚ
deriving DecidableEq, Repr

/-- The portfolio-risk dict returned by
`RiskChecker._analyze_portfolio_risk`. -/
structure PortfolioRiskAnalysis where
  portfolio_volatility : ℚ
  concentration_risk : ℚ
  liquidity_risk : ℚ
  sector_risk : ℚ
  overall_portfolio_risk : ℚ
deriving DecidableEq, Repr

/-- Python's `max()` over a list of rationals (callers guard non-empty; the
empty case is arbitrary). -/
def list_max : List ℚ → ℚ
  | [] => 0
  | x :: xs => xs.foldl max x

/-- One step of building `sectors[sector] = sectors.get(sector, 0) + value`. -/
def update_sector_sum : List (String × ℚ) → String → ℚ → List (String × ℚ)
  | [], sec, v => [(sec, v)]
  | (s, x) :: rest, sec, v =>
    if s = sec then (s, x + v) :: rest
    else (s, x) :: update_sector_sum rest sec v

/-- The per-sector current-value sums of the active investments. -/
def sector_sums (invs : List Investment) : List (String × ℚ) :=
  invs.foldl (fun m i => update_sector_sum m i.sector i.current_value) []

/-- `RiskChecker._analyze_portfolio_risk`: volatility, concentration,
liquidity and sector sub-scores (each a ratio against
`max(total_value, 1)`, with 0.5 defaults where a numerator set is empty),
blended 30/25/25/20 into `overall_portfolio_risk`.  A missing portfolio
yields the all-0.5 defaults. -/
def analyze_portfolio_risk (portfolio : Option PortfolioData)
    (hist : List Investment) : PortfolioRiskAnalysis :=
  match portfolio with
  | none =>
    { portfolio_volatility := 0.5, concentration_risk := 0.5
      liquidity_risk := 0.5, sector_risk := 0.5, overall_portfolio_risk := 0.5 }
  | some p =>
    let total_value := p.total_value
    let portfolio_volatility := |p.total_profit_loss| / max total_value 1
    let active := hist.filter (fun i => i.status = "active")
    let concentration_risk :=
      if active ≠ [] then
        list_max (active.map (·.current_value)) / max total_value 1
      else 0.5
    let liquidity_risk := 1 - p.cash_balance / max total_value 1
    let sectors := sector_sums active
    let sector_risk :=
      if sectors ≠ [] then
        list_max (sectors.map (·.2)) / max total_value 1
      else 0.5
    let overall_portfolio_risk :=
      portfolio_volatility * 0.3 + concentration_risk * 0.25 +
        liquidity_risk * 0.25 + sector_risk * 0.2
    { portfolio_volatility := portfolio_volatility
      concentration_risk := concentration_risk
      liquidity_risk := liquidity_risk
      sector_risk := sector_risk
      overall_portfolio_risk := overall_portfolio_risk }

/-- The user-profile fields read by the risk scorer. -/
structure UserProfile where
  risk_tolerance : String
deriving DecidableEq, Repr

/-- Lowercasing of the stated tolerance, then the base-risk table of
`RiskChecker._calculate_comprehensive_risk_score`: low → 0.3, high → 0.8,
anything else (including a missing profile) → 0.5. -/
def base_risk_of (user_profile : Option UserProfile) : ℚ :=
  let risk_tolerance :=
    match user_profile with
    | some u => lower_str u.risk_tolerance
    | none => "moderate"
  if risk_tolerance = "low" then 0.3
  else if risk_tolerance = "high" then 0.8
  else 0.5

/-- `RiskChecker._calculate_comprehensive_risk_score`: the weighted blend
`base*0.3 + (1 - behavior_score)*0.4 + portfolio_risk*0.3`, clamped to
[0,1] only after combination. -/
def calculate_comprehensive_risk_score (user_profile : Option UserProfile)
    (behavior : BehaviorAnalysis) (portfolio_risk : PortfolioRiskAnalysis) : ℚ :=
  let base_risk := base_risk_of user_profile
  let behavior_risk := 1 - behavior.behavior_score
  let portfolio_risk_score := portfolio_risk.overall_portfolio_risk
  let comprehensive_risk :=
    base_risk * 0.3 + behavior_risk * 0.4 + portfolio_risk_score * 0.3
  min (max comprehensive_risk 0) 1

/-- The risk-level binning in `RiskChecker._generate_risk_profile`. -/
def risk_level_of (risk_score : ℚ) : String :=
  if risk_score < 0.3 then "low"
  else if risk_score < 0.7 then "moderate"
  else "high"

/-- Clamp to the unit interval. -/
def clamp01 (x : ℚ) : ℚ := min 1 (max 0 x)

/-- The risk score as the claim words it (not as the source computes it),
for refinement comparison: every sub-score clamped to [0,1] before the
weighted combination, then the final score clamped to [0,1]. -/
def claimed_risk_score (user_profile : Option UserProfile)
    (behavior : BehaviorAnalysis) (portfolio_risk : PortfolioRiskAnalysis) : ℚ :=
  clamp01 (0.3 * clamp01 (base_risk_of user_profile) +
    0.4 * clamp01 (1 - behavior.behavior_score) +
    0.3 * clamp01 portfolio_risk.overall_portfolio_risk)

/-! ## Persistence (`DatabaseConfig.save_user_form_submission`)

`execute_query` opens a connection per statement and commits each
non-SELECT statement individually (`database_config.py`, lines 78-109;
the pool is configured with `autocommit: True`).  A failing statement
raises out of `execute_query`; `save_user_form_submission` catches any
exception and returns `False`, leaving the statements already executed
committed.  The failure schedule `fail_at = some k` models the run in
which the k-th `execute_query` call (0-based) of
`save_user_form_submission` raises; `none` models a run with no
persistence failure. -/

/-- A user decision inside the submitted form. -/
structure UserDecision where
  decision_type : String
  stock_code : String
deriving DecidableEq, Repr

/-- The user-preferences form (`user_input`). -/
structure FormData where
  budget : ℚ
  sector_preference : String
  risk_tolerance : String
  time_horizon : String
  target_profit : ℚ
  investment_goal : String
  user_decisions : List UserDecision
deriving DecidableEq, Repr

/-- A committed row of `user_form_submissions`. -/
structure SubmissionRow where
  user_id : Option String
  form_id : ℕ
  form : FormData
  recommendations_count : ℕ
deriving DecidableEq, Repr

/-- A committed row of `user_recommendations_history`. -/
structure RecommendationRow where
  user_id : Option String
  form_submission_id : ℕ
  stock_code : String
  stock_name : String
  recommendation_type : String
  confidence_score : ℚ
  expected_return : ℚ
deriving DecidableEq, Repr

/-- The database state the persistence boundary mutates. -/
structure DB where
  next_id : ℕ
  user_form_submissions : List SubmissionRow
  user_recommendations_history : List RecommendationRow
  last_insert_id : Option ℕ
deriving DecidableEq, Repr

/-- The `user_recommendations_history` row built for one recommendation. -/
def recommendation_row (user_id : Option String) (form_id : ℕ)
    (r : Recommendation) : RecommendationRow :=
  { user_id := user_id, form_submission_id := form_id
    stock_code := r.stock_code, stock_name := r.stock_name
    recommendation_type := r.recommendation_type
    confidence_score := r.confidence_score
    expected_return := r.expected_return }

/-- The per-recommendation INSERT loop of `save_user_form_submission`:
each insert is its own committed statement (call number `k`, `k+1`, ...);
a raising statement aborts the loop, the catch-all returns `False`, and
the earlier inserts stay committed. -/
def insert_recommendation_rows (fail_at : Option ℕ) (k : ℕ) (db : DB)
    (user_id : Option String) (form_id : ℕ) :
    List Recommendation → DB × Bool
  | [] => (db, true)
  | r :: rs =>
    if fail_at = some k then (db, false)
    else
      insert_recommendation_rows fail_at (k + 1)
        { db with user_recommendations_history :=
            db.user_recommendations_history ++ [recommendation_row user_id form_id r] }
        user_id form_id rs

/-- `DatabaseConfig.save_user_form_submission`: INSERT the form submission
(call 0), SELECT `LAST_INSERT_ID()` (call 1), then one INSERT per
recommendation (calls 2, 3, ...), each statement individually committed;
any raising statement is swallowed and reported only as a `False` return
value. -/
def save_user_form_submission (fail_at : Option ℕ) (db : DB)
    (user_id : Option String) (form : FormData)
    (recommendations : List Recommendation) : DB × Bool :=
  if fail_at = some 0 then (db, false)
  else
    let form_id := db.next_id
    let db1 : DB :=
      { db with next_id := form_id + 1
                user_form_submissions := db.user_form_submissions ++
                  [{ user_id := user_id, form_id := form_id, form := form
                     recommendations_count := recommendations.length }]
                last_insert_id := some form_id }
    if fail_at = some 1 then (db1, false)
    else
      match db1.last_insert_id with
      | some fid => insert_recommendation_rows fail_at 2 db1 user_id fid recommendations
      | none => (db1, true)

/-! ## Orchestrator (`AgenticFramework` in `agentic_framework.py`)

Each LangGraph node wraps its agent call in `try/except`; the agent call
itself performs external I/O, so its outcome is part of the run's
environment: `Except.error ()` models an exception escaping the agent
call (caught at the node boundary), `Except.ok r` models a normal return
`r`. -/

/-- Result dict of `scrape_stocks_tool`. -/
structure ScrapeResult where
  success : Bool
  data : List Stock
deriving Repr

/-- Result dict of `analyze_stocks_advanced_agentic`. -/
structure AnalyzeResult where
  success : Bool
  top_performers : List Analysis
deriving Repr

/-- Result dict of `news_scraper_node.run`. -/
structure NewsScrapeResult where
  news_records : List (String × List NewsRecord)
deriving Repr

/-- Result dict of `news_analyzer_node.run`. -/
structure NewsAnalyzeResult where
  news_analysis : List (String × NewsAnalysisResult)
deriving Repr

/-- The `risk_profile` dict stored into the state by the risk node. -/
structure RiskProfileSummary where
  risk_level : String
  risk_score : ℚ
deriving Repr

/-- Result dict of `check_risk_profile`. -/
structure RiskResult where
  success : Bool
  risk_profile : RiskProfileSummary
deriving Repr

/-- Result dict of `check_past_investments` (stored whole on success). -/
structure HistoryResult where
  success : Bool
deriving Repr

/-- Result dict of `check_portfolio`. -/
structure PortfolioResult where
  status : String
deriving Repr

/-- The `user_decision_results` dict set by the decision node. -/
structure DecisionResults where
  status : String
  processed_count : ℕ
deriving Repr

/-- One run's environment: the previously persisted artifacts the
orchestrator fetches, each agent call's outcome, and the persistence
failure schedule. -/
structure Env where
  previous_submissions : List SubmissionRow
  previous_recommendations : List Recommendation
  scrape_stocks : Except Unit ScrapeResult
  analyze_stocks : Except Unit AnalyzeResult
  scrape_news : Except Unit NewsScrapeResult
  analyze_news : Except Unit NewsAnalyzeResult
  check_risk : Except Unit RiskResult
  check_history : Except Unit HistoryResult
  check_portfolio : Except Unit PortfolioResult
  generate_recs : Except Unit Unit
  handle_decision : Except Unit Unit
  persist_failure : Option ℕ
  db : DB

/-- The mutable state dict threaded through the LangGraph nodes. -/
structure PipelineState where
  user_input : FormData
  user_id : String
  chat_message : String
  stock_data : List Stock
  stock_analysis : List Analysis
  news_data : List (String × List NewsRecord)
  news_analysis : List (String × NewsAnalysisResult)
  risk_profile : Option RiskProfileSummary
  user_history : Option HistoryResult
  portfolio_update : Option PortfolioResult
  recommendations : List Recommendation
  user_decision_results : Option DecisionResults

/-- The `initial_state` dict built by `run_workflow` (empty collections,
defaulted user id). -/
def initial_state (user_input : FormData) (chat_message : String)
    (user_id : Option String) : PipelineState :=
  { user_input := user_input
    user_id := user_id.getD "default_user"
    chat_message := chat_message
    stock_data := []
    stock_analysis := []
    news_data := []
    news_analysis := []
    risk_profile := none
    user_history := none
    portfolio_update := none
    recommendations := []
    user_decision_results := none }

/-- The hard-coded sample stocks `_scrape_stocks_node` substitutes when
scraping reports failure without raising. -/
def sample_stocks : List Stock :=
  [{ code := "HBL", name := "Habib Bank Limited", sector := "Banking"
     open_price := 100.50, high_price := 102.30, low_price := 99.80
     close_price := 101.20, volume := 1500000
     change_amount := 0.70, change_percent := 0.70 },
   { code := "UBL", name := "United Bank Limited", sector := "Banking"
     open_price := 95.20, high_price := 97.10, low_price := 94.50
     close_price := 96.80, volume := 1200000
     change_amount := 1.60, change_percent := 1.68 },
   { code := "OGDC", name := "Oil & Gas Development Company", sector := "Energy"
     open_price := 85.40, high_price := 87.20, low_price := 84.90
     close_price := 86.50, volume := 2000000
     change_amount := 1.10, change_percent := 1.29 },
   { code := "PPL", name := "Pakistan Petroleum Limited", sector := "Energy"
     open_price := 78.30, high_price := 80.10, low_price := 77.80
     close_price := 79.60, volume := 1800000
     change_amount := 1.30, change_percent := 1.66 },
   { code := "LUCK", name := "Lucky Cement Limited", sector := "Cement"
     open_price := 450.00, high_price := 455.50, low_price := 448.20
     close_price := 453.80, volume := 500000
     change_amount := 3.80, change_percent := 0.84 }]

/-- `AgenticFramework._create_mock_analysis`, restricted to the `Analysis`
fields the pipeline reads. -/
def create_mock_analysis (stocks : List Stock) : List Analysis :=
  (stocks.take 5).enum.map (fun p =>
    { stock_code := p.2.code
      stock_name := p.2.name
      sector := p.2.sector
      confidence_score := 0.6 + (p.1 : ℚ) * 0.08
      momentum := 2.5 + (p.1 : ℚ) * 1.2
      performance_score := 0.7 + (p.1 : ℚ) * 0.05 })

/-- `AgenticFramework._scrape_stocks_node`: exception → empty list;
unsuccessful scrape → the hard-coded sample stocks. -/
def scrape_stocks_node (env : Env) (st : PipelineState) : PipelineState :=
  match env.scrape_stocks with
  | .error _ => { st with stock_data := [] }
  | .ok r =>
    if r.success then { st with stock_data := r.data }
    else { st with stock_data := sample_stocks }

/-- `AgenticFramework._analyze_stocks_node`: no data → empty analysis;
exception → empty analysis; unsuccessful analysis → mock analysis. -/
def analyze_stocks_node (env : Env) (st : PipelineState) : PipelineState :=
  if st.stock_data = [] then { st with stock_analysis := [] }
  else
    match env.analyze_stocks with
    | .error _ => { st with stock_analysis := [] }
    | .ok r =>
      if r.success then { st with stock_analysis := r.top_performers }
      else { st with stock_analysis := create_mock_analysis st.stock_data }

/-- `AgenticFramework._scrape_news_node`: no top performers or exception
or empty scrape → empty news data. -/
def scrape_news_node (env : Env) (st : PipelineState) : PipelineState :=
  if st.stock_analysis.take 5 = [] then { st with news_data := [] }
  else
    match env.scrape_news with
    | .error _ => { st with news_data := [] }
    | .ok r =>
      if r.news_records ≠ [] then { st with news_data := r.news_records }
      else { st with news_data := [] }

/-- `AgenticFramework._analyze_news_node`. -/
def analyze_news_node (env : Env) (st : PipelineState) : PipelineState :=
  if st.news_data = [] then { st with news_analysis := [] }
  else
    match env.analyze_news with
    | .error _ => { st with news_analysis := [] }
    | .ok r =>
      if r.news_analysis ≠ [] then { st with news_analysis := r.news_analysis }
      else { st with news_analysis := [] }

/-- `AgenticFramework._check_risk_node`: exception or unsuccessful check →
empty dict (`none`). -/
def check_risk_node (env : Env) (st : PipelineState) : PipelineState :=
  match env.check_risk with
  | .error _ => { st with risk_profile := none }
  | .ok r =>
    if r.success then { st with risk_profile := some r.risk_profile }
    else { st with risk_profile := none }

/-- `AgenticFramework._check_past_investments_node`. -/
def check_past_investments_node (env : Env) (st : PipelineState) : PipelineState :=
  match env.check_history with
  | .error _ => { st with user_history := none }
  | .ok r =>
    if r.success then { st with user_history := some r }
    else { st with user_history := none }

/-- `AgenticFramework._check_portfolio_node`: only the statuses
`existing_user` and `new_user` are stored. -/
def check_portfolio_node (env : Env) (st : PipelineState) : PipelineState :=
  match env.check_portfolio with
  | .error _ => { st with portfolio_update := none }
  | .ok r =>
    if r.status = "existing_user" ∨ r.status = "new_user" then
      { st with portfolio_update := some r }
    else { st with portfolio_update := none }

/-- `AgenticFramework._generate_recommendations_node`: an exception inside
the agent (whose own catch-all reports `success=False`) or inside the node
yields an empty list; otherwise the agent's computed recommendations (its
internal database writes swallow their own failures and do not affect the
returned list). -/
def generate_recommendations_node (env : Env) (st : PipelineState) : PipelineState :=
  match env.generate_recs with
  | .error _ => { st with recommendations := [] }
  | .ok _ =>
    { st with recommendations :=
        generate_recommendations st.stock_analysis st.news_analysis }

/-- `AgenticFramework._handle_user_decision_node`. -/
def handle_user_decision_node (env : Env) (st : PipelineState) : PipelineState :=
  match env.handle_decision with
  | .error _ =>
    { st with user_decision_results := some ⟨"error", 0⟩ }
  | .ok _ =>
    if st.user_input.user_decisions = [] then
      { st with user_decision_results := some ⟨"no_decisions", 0⟩ }
    else
      { st with
        user_decision_results := some ⟨"completed", st.user_input.user_decisions.length⟩ }

/-- `workflow.ainvoke`: the nine nodes in the fixed edge order of
`_create_workflow`. -/
def pipeline_run (env : Env) (st : PipelineState) : PipelineState :=
  handle_user_decision_node env
    (generate_recommendations_node env
      (check_portfolio_node env
        (check_past_investments_node env
          (check_risk_node env
            (analyze_news_node env
              (scrape_news_node env
                (analyze_stocks_node env
                  (scrape_stocks_node env st))))))))

/-- The result dict of `AgenticFramework.run_workflow`, restricted to the
fields the claims inspect. -/
structure WorkflowResult where
  success : Bool
  error : Option String
  recommendations : List Recommendation
  recommendation_changes : Option Changes
  user_id : String

/-- `AgenticFramework.run_workflow`: fetch the previous submission and its
recommendations, run the workflow, diff old vs new, persist, and report.
Every callee in the `try` body catches its own exceptions
(`get_user_previous_submissions` and `get_user_previous_recommendations`
return empty lists on failure, `compare_recommendations` returns empty
partitions, `save_user_form_submission` returns `False`), so the result
is always built with `success := True` and the Boolean returned by the
persistence call is discarded. -/
def run_workflow (env : Env) (user_input : FormData) (chat_message : String)
    (user_id : Option String) : WorkflowResult × DB :=
  let prev_forms := if user_id.isSome then env.previous_submissions else []
  let previous_form := prev_forms.head?
  let previous_recommendations :=
    if previous_form.isSome then env.previous_recommendations else []
  let final_state := pipeline_run env (initial_state user_input chat_message user_id)
  let new_recommendations := final_state.recommendations
  let comparison : Option Changes :=
    if previous_recommendations ≠ [] then
      some (compare_recommendations previous_recommendations new_recommendations)
    else none
  let save_out :=
    save_user_form_submission env.persist_failure env.db user_id user_input
      new_recommendations
  ({ success := true
     error := none
     recommendations := new_recommendations
     recommendation_changes := comparison
     user_id := final_state.user_id },
   save_out.1)

/-! ## Concrete fixtures used by witnesses and counterexamples -/

/-- A market record whose intraday range is empty (`high == low`) but
whose change percent is positive. -/
def stock_flat : Stock :=
  { code := "FLAT", name := "Flat Range Ltd", sector := "Energy"
    open_price := 100, high_price := 100, low_price := 100
    close_price := 100, volume := 1000, change_amount := 2, change_percent := 2 }

/-- Old OGDC recommendation: `buy` at confidence 0.6. -/
def old_ogdc : Recommendation :=
  { stock_code := "OGDC", stock_name := "Oil & Gas Development Company"
    sector := "Energy", recommendation_type := "buy", confidence_score := 0.6
    expected_return := 5, risk_level := "medium" }

/-- New OGDC recommendation: `buy` at confidence 0.65. -/
def new_ogdc_65 : Recommendation :=
  { old_ogdc with confidence_score := 0.65 }

/-- New OGDC recommendation: `buy` at confidence 0.75. -/
def new_ogdc_75 : Recommendation :=
  { old_ogdc with confidence_score := 0.75 }

/-- Five news records classified 3 positive / 1 negative / 1 neutral. -/
def scenario_records : List NewsRecord :=
  [{ title := "a", summary := "", polarity := 0.5, subjectivity := 0.5
     confidence_score := 0.5, financial_impact := "low" },
   { title := "b", summary := "", polarity := 0.5, subjectivity := 0.5
     confidence_score := 0.5, financial_impact := "low" },
   { title := "c", summary := "", polarity := 0.5, subjectivity := 0.5
     confidence_score := 0.5, financial_impact := "low" },
   { title := "d", summary := "", polarity := -0.5, subjectivity := 0.5
     confidence_score := 0.5, financial_impact := "low" },
   { title := "e", summary := "", polarity := 0, subjectivity := 0
     confidence_score := 0.5, financial_impact := "low" }]

/-- A portfolio whose profit/loss magnitude dwarfs its total value, making
the unclamped volatility sub-score 100. -/
def cex_portfolio : PortfolioData :=
  { total_value := 1, total_profit_loss := 100, cash_balance := 0 }

/-- An empty database. -/
def db0 : DB :=
  { next_id := 0, user_form_submissions := [], user_recommendations_history := []
    last_insert_id := none }

/-- A well-formed preferences form. -/
def form0 : FormData :=
  { budget := 10000, sector_preference := "Any", risk_tolerance := "moderate"
    time_horizon := "medium", target_profit := 10, investment_goal := "growth"
    user_decisions := [] }

/-- A single scraped stock for the C2 scenario. -/
def stock_one : Stock :=
  { code := "OGDC", name := "Oil & Gas Development Company", sector := "Energy"
    open_price := 85, high_price := 87, low_price := 84, close_price := 86
    volume := 2000000, change_amount := 1, change_percent := 1 }

/-- A single analyzed stock for the C2 scenario. -/
def a_one : Analysis :=
  { stock_code := "OGDC", stock_name := "Oil & Gas Development Company"
    sector := "Energy", confidence_score := 1, momentum := 1
    performance_score := 80 }

/-- An environment whose very first persistence statement raises
(`persist_failure = some 0`): every agent call returns normally, the
scraper yields no data, and the database starts empty. -/
def env_c1 : Env :=
  { previous_submissions := []
    previous_recommendations := []
    scrape_stocks := .ok { success := true, data := [] }
    analyze_stocks := .ok { success := true, top_performers := [] }
    scrape_news := .ok { news_records := [] }
    analyze_news := .ok { news_analysis := [] }
    check_risk := .ok { success := true, risk_profile := ⟨"moderate", 0.5⟩ }
    check_history := .ok { success := true }
    check_portfolio := .ok { status := "new_user" }
    generate_recs := .ok ()
    handle_decision := .ok ()
    persist_failure := some 0
    db := db0 }

/-- An environment in which the analysis produces one recommendation and
the third persistence statement (the first recommendation INSERT)
raises. -/
def env_c2 : Env :=
  { env_c1 with
    scrape_stocks := .ok { success := true, data := [stock_one] }
    analyze_stocks := .ok { success := true, top_performers := [a_one] }
    persist_failure := some 2 }

/-! ## Theorems -/

theorem calculate_rsi_mem_Icc (s : Stock) :
    calculate_rsi s ∈ Set.Icc (0 : ℚ) 100 := by
  unfold calculate_rsi
  split
  · constructor
    · refine le_min ?_ (by norm_num)
      have h1 : (0 : ℚ) ≤ min (s.change_percent * 3) 50 := by
        have hcp : (0 : ℚ) < s.change_percent * 3 := by linarith
        exact le_min (le_of_lt hcp) (by norm_num)
      linarith
    · exact min_le_right _ _
  · constructor
    · exact le_max_right _ _
    · refine max_le ?_ (by norm_num)
      have hcp : s.change_percent * 3 ≤ 0 := by
        have : ¬ s.change_percent > 0 := by assumption
        nlinarith [not_lt.mp this]
      have : max (s.change_percent * 3) (-50) ≤ 0 :=
        max_le hcp (by norm_num)
      linarith

theorem volume_ratio_nonneg (s : Stock) : 0 ≤ volume_ratio s := by
  simp only [volume_ratio]
  split
  · have hv : (0 : ℚ) < (s.volume : ℚ) := by nlinarith [show ((s.volume : ℚ) * 1.1 > 0) by assumption]
    positivity
  · norm_num

theorem performance_total_nonneg (s : Stock) : 0 ≤ performance_total s := by
  have hrsi := calculate_rsi_mem_Icc s
  rw [Set.mem_Icc] at hrsi
  have h1 : (0 : ℚ) ≤ |s.change_percent| * 0.3 := by positivity
  have h2 : (0 : ℚ) ≤ (50 - |calculate_rsi s - 50|) / 50 * 0.25 := by
    have habs : |calculate_rsi s - 50| ≤ 50 :=
      abs_le.mpr ⟨by linarith [hrsi.1], by linarith [hrsi.2]⟩
    nlinarith
  have h3 : (0 : ℚ) ≤ min (volume_ratio s) 2.0 * 0.2 := by
    have := volume_ratio_nonneg s
    have hm : (0 : ℚ) ≤ min (volume_ratio s) 2.0 := le_min this (by norm_num)
    nlinarith
  have h4 : (0 : ℚ) ≤ min (max (sharpe_ratio s) 0) 10 / 10 * 0.15 := by
    have hm : (0 : ℚ) ≤ min (max (sharpe_ratio s) 0) 10 :=
      le_min (le_max_right _ _) (by norm_num)
    nlinarith
  have h5 : (0 : ℚ) ≤ max 0 (1 - value_at_risk s / 100) * 0.1 := by
    have hm : (0 : ℚ) ≤ max 0 (1 - value_at_risk s / 100) := le_max_left _ _
    nlinarith
  simp only [performance_total]
  linarith

theorem performance_with_bonuses_nonneg (s : Stock) :
    0 ≤ performance_with_bonuses s := by
  have h := performance_total_nonneg s
  simp only [performance_with_bonuses]
  split <;> split <;> nlinarith

theorem performance_score_bounds (s : Stock) :
    0 ≤ calculate_comprehensive_performance_score s ∧
      calculate_comprehensive_performance_score s ≤ 100 := by
  have h := performance_with_bonuses_nonneg s
  unfold calculate_comprehensive_performance_score
  constructor
  · refine le_min ?_ (by norm_num)
    nlinarith
  · exact le_trans (min_le_right _ _) (by norm_num)

/-- C8 counterexample: the claim asserts that a record with
`high_price == low_price` makes the RSI-like oscillator return the fixed
neutral 50; but `_calculate_rsi` never reads `high_price`/`low_price` —
on the record `stock_flat` (`high == low == 100`, `change_percent == 2`)
it returns 56, not 50. -/
theorem oscillator_neutral_counterexample :
    stock_flat.high_price = stock_flat.low_price ∧
      calculate_rsi stock_flat ≠ 50 := by
  constructor
  · rfl
  · unfold calculate_rsi stock_flat
    norm_num

/-- C8 (amended): for a record with `high_price == low_price` the
stochastic oscillator returns the fixed neutral 50 (both lines) and
Williams %R returns the fixed -50 instead of dividing by zero; the
RSI-like oscillator takes no oscillator high/low input at all — it is a
function of `change_percent` alone — and returns its neutral 50 when
`change_percent` is zero. -/
theorem oscillators_neutral_when_high_eq_low (s : Stock)
    (h : s.high_price = s.low_price) :
    (calculate_stochastic s).1 = 50 ∧ (calculate_stochastic s).2 = 50 ∧
      calculate_williams_r s = -50 ∧
      (∀ s2 : Stock, s2.change_percent = s.change_percent →
        calculate_rsi s2 = calculate_rsi s) ∧
      (s.change_percent = 0 → calculate_rsi s = 50) := by
  refine ⟨?_, ?_, ?_, ?_, ?_⟩
  · simp [calculate_stochastic, h]
  · simp [calculate_stochastic, h]
  · simp [calculate_williams_r, h]
  · intro s2 hcp
    unfold calculate_rsi
    rw [hcp]
  · intro hcp
    unfold calculate_rsi
    rw [hcp]
    norm_num

/-- Witness for the amended C8 at the concrete record `stock_flat`. -/
theorem oscillators_neutral_when_high_eq_low_witness :
    (calculate_stochastic stock_flat).1 = 50 ∧
      calculate_williams_r stock_flat = -50 := by
  have h := oscillators_neutral_when_high_eq_low stock_flat rfl
  exact ⟨h.1, h.2.2.1⟩

/-- C9: every computed performance score lies in [0,100]; the ranked
output carries rank values 1, 2, 3, ... (exactly `range' 1 n`), its
scores are in descending order, and the stable sort keeps the original
input order of equal scores. -/
theorem performance_score_and_ranking :
    (∀ s : Stock, 0 ≤ calculate_comprehensive_performance_score s ∧
      calculate_comprehensive_performance_score s ≤ 100) ∧
    (∀ l : List Analysis,
      (rank_top_performers l).map Prod.snd =
        List.range' 1 ((sort_by_performance l).take 10).length ∧
      List.Sorted (· ≥ ·)
        ((rank_top_performers l).map (fun p => p.1.performance_score)) ∧
      (∀ a b : Analysis, a.performance_score = b.performance_score →
        List.Sublist [a, b] l →
          List.Sublist [a, b] (sort_by_performance l))) := by
  constructor
  · exact performance_score_bounds
  · intro l
    refine ⟨?_, ?_, ?_⟩
    · simp only [rank_top_performers]
      exact List.map_snd_zip _ _ (by simp)
    · have hs : List.Sorted perf_ge (sort_by_performance l) :=
        List.sorted_insertionSort perf_ge l
      have ht : List.Sorted perf_ge ((sort_by_performance l).take 10) :=
        List.Pairwise.sublist (List.take_sublist _ _) hs
      have hmapfst : (rank_top_performers l).map Prod.fst =
          (sort_by_performance l).take 10 := by
        simp only [rank_top_performers]
        exact List.map_fst_zip _ _ (by simp)
      have hcomp : (fun p : Analysis × ℕ => p.1.performance_score) =
          (fun a : Analysis => a.performance_score) ∘ Prod.fst := rfl
      rw [hcomp, ← List.map_map, hmapfst]
      exact List.pairwise_map.mpr ht
    · intro a b heq hsub
      exact List.pair_sublist_insertionSort (le_of_eq heq.symm) hsub

theorem rtype_thresholds (x : ℚ) :
    ((if x > 0.8 then "strong_buy" else if x > 0.6 then "buy"
        else if x > 0.4 then "hold" else "sell") = "strong_buy" ↔ 0.8 < x) ∧
    ((if x > 0.8 then "strong_buy" else if x > 0.6 then "buy"
        else if x > 0.4 then "hold" else "sell") = "buy" ↔ 0.6 < x ∧ x ≤ 0.8) ∧
    ((if x > 0.8 then "strong_buy" else if x > 0.6 then "buy"
        else if x > 0.4 then "hold" else "sell") = "hold" ↔ 0.4 < x ∧ x ≤ 0.6) ∧
    ((if x > 0.8 then "strong_buy" else if x > 0.6 then "buy"
        else if x > 0.4 then "hold" else "sell") = "sell" ↔ x ≤ 0.4) := by
  split_ifs with h1 h2 h3 <;>
    refine ⟨?_, ?_, ?_, ?_⟩ <;>
    simp_all <;>
    first
      | (constructor <;> linarith)
      | (intros; linarith)
      | linarith

theorem risk_thresholds (x : ℚ) :
    ((if x < 0.4 then "high" else if x < 0.7 then "medium" else "low") = "high" ↔
      x < 0.4) ∧
    ((if x < 0.4 then "high" else if x < 0.7 then "medium" else "low") = "medium" ↔
      0.4 ≤ x ∧ x < 0.7) ∧
    ((if x < 0.4 then "high" else if x < 0.7 then "medium" else "low") = "low" ↔
      0.7 ≤ x) := by
  split_ifs with h1 h2 <;>
    refine ⟨?_, ?_, ?_⟩ <;>
    simp_all <;>
    first
      | (constructor <;> linarith)
      | (intros; linarith)
      | linarith

theorem build_recommendation_spec (news : List (String × NewsAnalysisResult))
    (a : Analysis) :
    (build_recommendation news a).confidence_score =
      0.6 * a.confidence_score + 0.4 * sentiment_score_for news a.stock_code ∧
    ((build_recommendation news a).recommendation_type = "strong_buy" ↔
      0.8 < (build_recommendation news a).confidence_score) ∧
    ((build_recommendation news a).recommendation_type = "buy" ↔
      0.6 < (build_recommendation news a).confidence_score ∧
        (build_recommendation news a).confidence_score ≤ 0.8) ∧
    ((build_recommendation news a).recommendation_type = "hold" ↔
      0.4 < (build_recommendation news a).confidence_score ∧
        (build_recommendation news a).confidence_score ≤ 0.6) ∧
    ((build_recommendation news a).recommendation_type = "sell" ↔
      (build_recommendation news a).confidence_score ≤ 0.4) ∧
    ((build_recommendation news a).risk_level = "high" ↔
      (build_recommendation news a).confidence_score < 0.4) ∧
    ((build_recommendation news a).risk_level = "medium" ↔
      0.4 ≤ (build_recommendation news a).confidence_score ∧
        (build_recommendation news a).confidence_score < 0.7) ∧
    ((build_recommendation news a).risk_level = "low" ↔
      0.7 ≤ (build_recommendation news a).confidence_score) := by
  have ht := rtype_thresholds
    (a.confidence_score * 0.6 + sentiment_score_for news a.stock_code * 0.4)
  have hr := risk_thresholds
    (a.confidence_score * 0.6 + sentiment_score_for news a.stock_code * 0.4)
  simp only [build_recommendation]
  exact ⟨by ring, ht.1, ht.2.1, ht.2.2.1, ht.2.2.2, hr.1, hr.2.1, hr.2.2⟩

/-- C3: each synthesized recommendation for a top-5 technical profile
scores `0.6 × technical confidence + 0.4 × sentiment score` (sentiment
defaulting to 0.5 when the symbol has no profile), its type and risk
level follow the documented thresholds on that score, and the returned
list is sorted descending by the score. -/
theorem recommendation_synthesis_spec :
    ∀ (stock_analysis : List Analysis)
      (news : List (String × NewsAnalysisResult)),
      (∀ code, lookup_last news code = none →
        sentiment_score_for news code = 0.5) ∧
      (∀ r ∈ generate_recommendations stock_analysis news,
        ∃ a ∈ stock_analysis.take 5,
          r.confidence_score = 0.6 * a.confidence_score +
            0.4 * sentiment_score_for news a.stock_code ∧
          (r.recommendation_type = "strong_buy" ↔ 0.8 < r.confidence_score) ∧
          (r.recommendation_type = "buy" ↔
            0.6 < r.confidence_score ∧ r.confidence_score ≤ 0.8) ∧
          (r.recommendation_type = "hold" ↔
            0.4 < r.confidence_score ∧ r.confidence_score ≤ 0.6) ∧
          (r.recommendation_type = "sell" ↔ r.confidence_score ≤ 0.4) ∧
          (r.risk_level = "high" ↔ r.confidence_score < 0.4) ∧
          (r.risk_level = "medium" ↔
            0.4 ≤ r.confidence_score ∧ r.confidence_score < 0.7) ∧
          (r.risk_level = "low" ↔ 0.7 ≤ r.confidence_score)) ∧
      List.Sorted (fun x y : Recommendation =>
          y.confidence_score ≤ x.confidence_score)
        (generate_recommendations stock_analysis news) := by
  intro sa news
  refine ⟨?_, ?_, ?_⟩
  · intro code h
    simp [sentiment_score_for, h]
  · intro r hr
    rw [generate_recommendations, List.mem_insertionSort] at hr
    obtain ⟨a, ha, rfl⟩ := List.mem_map.mp hr
    exact ⟨a, ha, build_recommendation_spec news a⟩
  · exact List.sorted_insertionSort conf_ge _

/-- C6: aggregating an empty news batch yields the defined neutral
profile: neutral sentiment, zero score, zero confidence, all article
counts zero, empty keyword lists, and the explicit no-data recommendation
string. -/
theorem news_empty_neutral (code : String) :
    (analyze_news_for_company [] code).overall_sentiment = "neutral" ∧
    (analyze_news_for_company [] code).sentiment_score = 0 ∧
    (analyze_news_for_company [] code).confidence = 0 ∧
    (analyze_news_for_company [] code).news_count = 0 ∧
    (analyze_news_for_company [] code).positive_news = 0 ∧
    (analyze_news_for_company [] code).negative_news = 0 ∧
    (analyze_news_for_company [] code).neutral_news = 0 ∧
    (analyze_news_for_company [] code).key_events = [] ∧
    (analyze_news_for_company [] code).risk_factors = [] ∧
    (analyze_news_for_company [] code).opportunities = [] ∧
    (analyze_news_for_company [] code).recommendation =
      "No recent news available for analysis." :=
  ⟨rfl, rfl, rfl, rfl, rfl, rfl, rfl, rfl, rfl, rfl, rfl⟩

theorem sentiment_label_cases (p n : ℚ) :
    ((if n < p ∧ 0.4 < p then "bullish"
        else if p < n ∧ 0.4 < n then "bearish" else "neutral") = "bullish" ↔
      n < p ∧ 0.4 < p) ∧
    ((if n < p ∧ 0.4 < p then "bullish"
        else if p < n ∧ 0.4 < n then "bearish" else "neutral") = "bearish" ↔
      p < n ∧ 0.4 < n) ∧
    ((if n < p ∧ 0.4 < p then "bullish"
        else if p < n ∧ 0.4 < n then "bearish" else "neutral") = "neutral" ↔
      ¬(n < p ∧ 0.4 < p) ∧ ¬(p < n ∧ 0.4 < n)) := by
  split_ifs with h1 h2
  · refine ⟨by simp [h1], ?_, ?_⟩
    · simp only [show ("bullish" = "bearish") = False by simp, false_iff]
      rintro ⟨hpn, _⟩
      exact absurd h1.1 (by linarith)
    · simp only [show ("bullish" = "neutral") = False by simp, false_iff]
      rintro ⟨hna, _⟩
      exact hna h1
  · refine ⟨by simp [h1], by simp [h2], ?_⟩
    · simp only [show ("bearish" = "neutral") = False by simp, false_iff]
      rintro ⟨_, hnb⟩
      exact hnb h2
  · exact ⟨by simp [h1], by simp [h2], by simp [h1, h2]⟩

theorem analyze_nonempty_fields (records : List NewsRecord) (code : String)
    (h : records ≠ []) :
    (analyze_news_for_company records code).overall_sentiment =
      overall_sentiment_of records ∧
    (analyze_news_for_company records code).sentiment_score =
      sentiment_score_of records ∧
    (analyze_news_for_company records code).positive_news =
      positive_count records ∧
    (analyze_news_for_company records code).negative_news =
      negative_count records := by
  rw [analyze_news_for_company, if_neg h]
  exact ⟨rfl, rfl, rfl, rfl⟩

/-- C7: over a non-empty news batch the overall sentiment is `bullish`
exactly when the positive ratio exceeds both the negative ratio and 0.4
(`bearish` symmetrically, `neutral` otherwise), the sentiment score is
the positive ratio / negated negative ratio / zero accordingly, and the
3-positive 1-negative 1-neutral scenario is classified `bullish`. -/
theorem news_sentiment_aggregation :
    (∀ (records : List NewsRecord) (code : String), records ≠ [] →
      ((analyze_news_for_company records code).overall_sentiment = "bullish" ↔
        negative_ratio records < positive_ratio records ∧
          0.4 < positive_ratio records) ∧
      ((analyze_news_for_company records code).overall_sentiment = "bearish" ↔
        positive_ratio records < negative_ratio records ∧
          0.4 < negative_ratio records) ∧
      ((analyze_news_for_company records code).overall_sentiment = "neutral" ↔
        ¬(negative_ratio records < positive_ratio records ∧
            0.4 < positive_ratio records) ∧
          ¬(positive_ratio records < negative_ratio records ∧
            0.4 < negative_ratio records)) ∧
      (analyze_news_for_company records code).sentiment_score =
        (if negative_ratio records < positive_ratio records ∧
            0.4 < positive_ratio records then positive_ratio records
          else if positive_ratio records < negative_ratio records ∧
            0.4 < negative_ratio records then -negative_ratio records
          else 0)) ∧
    positive_count scenario_records = 3 ∧
    negative_count scenario_records = 1 ∧
    neutral_count scenario_records = 1 ∧
    (analyze_news_for_company scenario_records "OGDC").overall_sentiment =
      "bullish" := by
  have hscen_pos : positive_count scenario_records = 3 := by
    norm_num [positive_count, scenario_records, analyze_sentiment_advanced,
      List.count_cons]
    decide
  have hscen_neg : negative_count scenario_records = 1 := by
    norm_num [negative_count, scenario_records, analyze_sentiment_advanced,
      List.count_cons]
    decide
  have hscen_neu : neutral_count scenario_records = 1 := by
    norm_num [neutral_count, scenario_records, analyze_sentiment_advanced,
      List.count_cons]
    decide
  have hmain : ∀ (records : List NewsRecord) (code : String), records ≠ [] →
      ((analyze_news_for_company records code).overall_sentiment = "bullish" ↔
        negative_ratio records < positive_ratio records ∧
          0.4 < positive_ratio records) ∧
      ((analyze_news_for_company records code).overall_sentiment = "bearish" ↔
        positive_ratio records < negative_ratio records ∧
          0.4 < negative_ratio records) ∧
      ((analyze_news_for_company records code).overall_sentiment = "neutral" ↔
        ¬(negative_ratio records < positive_ratio records ∧
            0.4 < positive_ratio records) ∧
          ¬(positive_ratio records < negative_ratio records ∧
            0.4 < negative_ratio records)) ∧
      (analyze_news_for_company records code).sentiment_score =
        (if negative_ratio records < positive_ratio records ∧
            0.4 < positive_ratio records then positive_ratio records
          else if positive_ratio records < negative_ratio records ∧
            0.4 < negative_ratio records then -negative_ratio records
          else 0) := by
    intro records code h
    obtain ⟨h1, h2, _, _⟩ := analyze_nonempty_fields records code h
    have hl := sentiment_label_cases (positive_ratio records) (negative_ratio records)
    rw [h1, h2]
    exact ⟨hl.1, hl.2.1, hl.2.2, rfl⟩
  refine ⟨hmain, hscen_pos, hscen_neg, hscen_neu, ?_⟩
  have h5 : scenario_records ≠ [] := by simp [scenario_records]
  refine ((hmain scenario_records "OGDC" h5).1).mpr ?_
  have hlen : scenario_records.length = 5 := by simp [scenario_records]
  constructor
  · rw [positive_ratio, negative_ratio, hscen_pos, hscen_neg, hlen]
    norm_num
  · rw [positive_ratio, hscen_pos, hlen]
    norm_num

theorem getLast_eq_some_mem {α : Type} {l : List α} {a : α}
    (h : l.getLast? = some a) : a ∈ l := by
  have hm : a ∈ l.getLast? := by rw [Option.mem_def, h]
  obtain ⟨hne, rfl⟩ := List.mem_getLast?_eq_getLast hm
  exact List.getLast_mem hne

theorem lookup_rec_isSome_iff (l : List Recommendation) (s : String) :
    (lookup_rec l s).isSome ↔ s ∈ rec_codes l := by
  unfold lookup_rec rec_codes
  rw [List.getLast?_isSome]
  constructor
  · intro h
    obtain ⟨r, hr⟩ := List.exists_mem_of_ne_nil _ h
    rw [List.mem_filter] at hr
    exact List.mem_dedup.mpr (List.mem_map.mpr ⟨r, hr.1, by simpa using hr.2⟩)
  · intro h
    obtain ⟨r, hrl, hrs⟩ := List.mem_map.mp (List.mem_dedup.mp h)
    intro hnil
    have hmem : r ∈ l.filter (fun r => r.stock_code = s) :=
      List.mem_filter.mpr ⟨hrl, by simpa using hrs⟩
    simp [hnil] at hmem

theorem lookup_rec_spec {l : List Recommendation} {s : String}
    {r : Recommendation} (h : lookup_rec l s = some r) :
    r ∈ l ∧ r.stock_code = s := by
  unfold lookup_rec at h
  have hr := getLast_eq_some_mem h
  rw [List.mem_filter] at hr
  exact ⟨hr.1, by simpa using hr.2⟩

theorem in_new_iff (old_recs new_recs : List Recommendation) (s : String) :
    in_new (compare_recommendations old_recs new_recs) s ↔
      s ∈ rec_codes new_recs ∧ s ∉ rec_codes old_recs := by
  simp only [in_new, compare_recommendations, new_partition]
  constructor
  · rintro ⟨e, he, hcode⟩
    rw [List.mem_filterMap] at he
    obtain ⟨a, ha, hfa⟩ := he
    rw [List.mem_filter] at ha
    obtain ⟨nr, _, hmk⟩ := Option.map_eq_some'.mp hfa
    have hae : e.stock_code = a := by rw [← hmk]
    rw [← hcode, hae]
    exact ⟨ha.1, by simpa using ha.2⟩
  · rintro ⟨hnew, hold⟩
    obtain ⟨nr, hnr⟩ :=
      Option.isSome_iff_exists.mp ((lookup_rec_isSome_iff new_recs s).mpr hnew)
    refine ⟨{ stock_code := s, recommendation := nr.recommendation_type
              confidence := nr.confidence_score
              reason := "New recommendation based on updated analysis" },
      List.mem_filterMap.mpr ⟨s, ?_, ?_⟩, rfl⟩
    · exact List.mem_filter.mpr ⟨hnew, by simpa using hold⟩
    · rw [hnr]; rfl

theorem in_removed_iff (old_recs new_recs : List Recommendation) (s : String) :
    in_removed (compare_recommendations old_recs new_recs) s ↔
      s ∈ rec_codes old_recs ∧ s ∉ rec_codes new_recs := by
  simp only [in_removed, compare_recommendations, removed_partition]
  constructor
  · rintro ⟨e, he, hcode⟩
    rw [List.mem_filterMap] at he
    obtain ⟨a, ha, hfa⟩ := he
    rw [List.mem_filter] at ha
    obtain ⟨orc, _, hmk⟩ := Option.map_eq_some'.mp hfa
    have hae : e.stock_code = a := by rw [← hmk]
    rw [← hcode, hae]
    exact ⟨ha.1, by simpa using ha.2⟩
  · rintro ⟨hold, hnew⟩
    obtain ⟨orc, horc⟩ :=
      Option.isSome_iff_exists.mp ((lookup_rec_isSome_iff old_recs s).mpr hold)
    refine ⟨{ stock_code := s, old_recommendation := orc.recommendation_type
              reason := "No longer recommended based on current analysis" },
      List.mem_filterMap.mpr ⟨s, ?_, ?_⟩, rfl⟩
    · exact List.mem_filter.mpr ⟨hold, by simpa using hnew⟩
    · rw [horc]; rfl

theorem in_changed_iff (old_recs new_recs : List Recommendation) (s : String) :
    in_changed (compare_recommendations old_recs new_recs) s ↔
      ∃ o n, lookup_rec old_recs s = some o ∧ lookup_rec new_recs s = some n ∧
        is_changed_pair o n = true := by
  simp only [in_changed, compare_recommendations, changed_partition]
  constructor
  · rintro ⟨e, he, hcode⟩
    rw [List.mem_filterMap] at he
    obtain ⟨a, _, hfa⟩ := he
    obtain ⟨o, ho, hrest⟩ := Option.bind_eq_some.mp hfa
    obtain ⟨n, hn, hite⟩ := Option.bind_eq_some.mp hrest
    by_cases hch : is_changed_pair o n
    · rw [if_pos hch] at hite
      have hae : e.stock_code = a := by rw [← Option.some.inj hite]
      rw [← hcode, hae]
      exact ⟨o, n, ho, hn, hch⟩
    · rw [if_neg hch] at hite
      exact absurd hite (by simp)
  · rintro ⟨o, n, ho, hn, hch⟩
    have hso : s ∈ rec_codes old_recs :=
      (lookup_rec_isSome_iff old_recs s).mp (by rw [ho]; rfl)
    have hsn : s ∈ rec_codes new_recs :=
      (lookup_rec_isSome_iff new_recs s).mp (by rw [hn]; rfl)
    refine ⟨{ stock_code := s, old_recommendation := o.recommendation_type
              new_recommendation := n.recommendation_type
              old_confidence := o.confidence_score
              new_confidence := n.confidence_score
              reason := generate_change_reason o n },
      List.mem_filterMap.mpr ⟨s, ?_, ?_⟩, rfl⟩
    · exact List.mem_filter.mpr ⟨hso, by simpa using hsn⟩
    · rw [ho, hn]
      simp only [Option.some_bind]
      rw [if_pos hch]

theorem in_unchanged_iff (old_recs new_recs : List Recommendation) (s : String) :
    in_unchanged (compare_recommendations old_recs new_recs) s ↔
      ∃ o n, lookup_rec old_recs s = some o ∧ lookup_rec new_recs s = some n ∧
        is_changed_pair o n = false := by
  simp only [in_unchanged, compare_recommendations, unchanged_partition]
  constructor
  · rintro ⟨e, he, hcode⟩
    rw [List.mem_filterMap] at he
    obtain ⟨a, _, hfa⟩ := he
    obtain ⟨o, ho, hrest⟩ := Option.bind_eq_some.mp hfa
    obtain ⟨n, hn, hite⟩ := Option.bind_eq_some.mp hrest
    by_cases hch : is_changed_pair o n
    · rw [if_pos hch] at hite
      exact absurd hite (by simp)
    · rw [if_neg hch] at hite
      have hae : e.stock_code = a := by rw [← Option.some.inj hite]
      rw [← hcode, hae]
      exact ⟨o, n, ho, hn, by simpa using hch⟩
  · rintro ⟨o, n, ho, hn, hch⟩
    have hso : s ∈ rec_codes old_recs :=
      (lookup_rec_isSome_iff old_recs s).mp (by rw [ho]; rfl)
    have hsn : s ∈ rec_codes new_recs :=
      (lookup_rec_isSome_iff new_recs s).mp (by rw [hn]; rfl)
    refine ⟨{ stock_code := s, recommendation := n.recommendation_type
              confidence := n.confidence_score },
      List.mem_filterMap.mpr ⟨s, ?_, ?_⟩, rfl⟩
    · exact List.mem_filter.mpr ⟨hso, by simpa using hsn⟩
    · rw [ho, hn]
      simp only [Option.some_bind]
      rw [if_neg (by simp [hch])]

/-- C4: every symbol present in the old or the new recommendation set
appears in exactly one of the four partitions {new, removed, changed,
unchanged} of the computed delta. -/
theorem recommendation_delta_partition (old_recs new_recs : List Recommendation)
    (s : String) (h : s ∈ rec_codes old_recs ∨ s ∈ rec_codes new_recs) :
    (in_new (compare_recommendations old_recs new_recs) s ∨
      in_removed (compare_recommendations old_recs new_recs) s ∨
      in_changed (compare_recommendations old_recs new_recs) s ∨
      in_unchanged (compare_recommendations old_recs new_recs) s) ∧
    ¬(in_new (compare_recommendations old_recs new_recs) s ∧
      in_removed (compare_recommendations old_recs new_recs) s) ∧
    ¬(in_new (compare_recommendations old_recs new_recs) s ∧
      in_changed (compare_recommendations old_recs new_recs) s) ∧
    ¬(in_new (compare_recommendations old_recs new_recs) s ∧
      in_unchanged (compare_recommendations old_recs new_recs) s) ∧
    ¬(in_removed (compare_recommendations old_recs new_recs) s ∧
      in_changed (compare_recommendations old_recs new_recs) s) ∧
    ¬(in_removed (compare_recommendations old_recs new_recs) s ∧
      in_unchanged (compare_recommendations old_recs new_recs) s) ∧
    ¬(in_changed (compare_recommendations old_recs new_recs) s ∧
      in_unchanged (compare_recommendations old_recs new_recs) s) := by
  rw [in_new_iff, in_removed_iff, in_changed_iff, in_unchanged_iff]
  by_cases ho : s ∈ rec_codes old_recs <;> by_cases hn : s ∈ rec_codes new_recs
  · -- in both sets: changed or unchanged
    obtain ⟨o, hlo⟩ :=
      Option.isSome_iff_exists.mp ((lookup_rec_isSome_iff old_recs s).mpr ho)
    obtain ⟨n, hln⟩ :=
      Option.isSome_iff_exists.mp ((lookup_rec_isSome_iff new_recs s).mpr hn)
    refine ⟨?_, ?_, ?_, ?_, ?_, ?_, ?_⟩
    · by_cases hch : is_changed_pair o n
      · exact Or.inr (Or.inr (Or.inl ⟨o, n, hlo, hln, hch⟩))
      · exact Or.inr (Or.inr (Or.inr ⟨o, n, hlo, hln, by simpa using hch⟩))
    · rintro ⟨⟨_, hno⟩, _⟩; exact hno ho
    · rintro ⟨⟨_, hno⟩, _⟩; exact hno ho
    · rintro ⟨⟨_, hno⟩, _⟩; exact hno ho
    · rintro ⟨⟨_, hnn⟩, _⟩; exact hnn hn
    · rintro ⟨⟨_, hnn⟩, _⟩; exact hnn hn
    · rintro ⟨⟨o1, n1, hlo1, hln1, hc1⟩, ⟨o2, n2, hlo2, hln2, hc2⟩⟩
      rw [hlo] at hlo1 hlo2
      rw [hln] at hln1 hln2
      cases Option.some.inj hlo1
      cases Option.some.inj hln1
      cases Option.some.inj hlo2
      cases Option.some.inj hln2
      rw [hc1] at hc2
      simp at hc2
  · -- only in the old set: removed
    have hnone : ∀ n, lookup_rec new_recs s ≠ some n := by
      intro n hcontra
      exact hn ((lookup_rec_isSome_iff new_recs s).mp (by rw [hcontra]; rfl))
    refine ⟨Or.inr (Or.inl ⟨ho, hn⟩), ?_, ?_, ?_, ?_, ?_, ?_⟩
    · rintro ⟨⟨hn', _⟩, _⟩; exact hn hn'
    · rintro ⟨⟨hn', _⟩, _⟩; exact hn hn'
    · rintro ⟨⟨hn', _⟩, _⟩; exact hn hn'
    · rintro ⟨_, ⟨o1, n1, _, hln1, _⟩⟩; exact hnone n1 hln1
    · rintro ⟨_, ⟨o1, n1, _, hln1, _⟩⟩; exact hnone n1 hln1
    · rintro ⟨⟨o1, n1, _, hln1, _⟩, _⟩; exact hnone n1 hln1
  · -- only in the new set: new
    have hnone : ∀ o, lookup_rec old_recs s ≠ some o := by
      intro o hcontra
      exact ho ((lookup_rec_isSome_iff old_recs s).mp (by rw [hcontra]; rfl))
    refine ⟨Or.inl ⟨hn, ho⟩, ?_, ?_, ?_, ?_, ?_, ?_⟩
    · rintro ⟨_, ⟨ho', _⟩⟩; exact ho ho'
    · rintro ⟨_, ⟨o1, n1, hlo1, _, _⟩⟩; exact hnone o1 hlo1
    · rintro ⟨_, ⟨o1, n1, hlo1, _, _⟩⟩; exact hnone o1 hlo1
    · rintro ⟨⟨ho', _⟩, _⟩; exact ho ho'
    · rintro ⟨⟨ho', _⟩, _⟩; exact ho ho'
    · rintro ⟨⟨o1, n1, hlo1, _, _⟩, _⟩; exact hnone o1 hlo1
  · -- in neither: the hypothesis is contradictory
    exact absurd h (by simp [ho, hn])

/-- Witness for C4 at a concrete one-element new set. -/
theorem recommendation_delta_partition_witness :
    (in_new (compare_recommendations [] [old_ogdc]) "OGDC" ∨
      in_removed (compare_recommendations [] [old_ogdc]) "OGDC" ∨
      in_changed (compare_recommendations [] [old_ogdc]) "OGDC" ∨
      in_unchanged (compare_recommendations [] [old_ogdc]) "OGDC") ∧
    ¬(in_new (compare_recommendations [] [old_ogdc]) "OGDC" ∧
      in_removed (compare_recommendations [] [old_ogdc]) "OGDC") ∧
    ¬(in_new (compare_recommendations [] [old_ogdc]) "OGDC" ∧
      in_changed (compare_recommendations [] [old_ogdc]) "OGDC") ∧
    ¬(in_new (compare_recommendations [] [old_ogdc]) "OGDC" ∧
      in_unchanged (compare_recommendations [] [old_ogdc]) "OGDC") ∧
    ¬(in_removed (compare_recommendations [] [old_ogdc]) "OGDC" ∧
      in_changed (compare_recommendations [] [old_ogdc]) "OGDC") ∧
    ¬(in_removed (compare_recommendations [] [old_ogdc]) "OGDC" ∧
      in_unchanged (compare_recommendations [] [old_ogdc]) "OGDC") ∧
    ¬(in_changed (compare_recommendations [] [old_ogdc]) "OGDC" ∧
      in_unchanged (compare_recommendations [] [old_ogdc]) "OGDC") :=
  recommendation_delta_partition [] [old_ogdc] "OGDC"
    (Or.inr (by simp [rec_codes, old_ogdc]))

/-- C5: a symbol present in both sets is classified `changed` exactly when
its recommendation type differs or its confidence moved by more than 0.1,
and `unchanged` otherwise. -/
theorem changed_iff_threshold (old_recs new_recs : List Recommendation)
    (s : String) (o n : Recommendation)
    (ho : lookup_rec old_recs s = some o)
    (hn : lookup_rec new_recs s = some n) :
    (in_changed (compare_recommendations old_recs new_recs) s ↔
      (o.recommendation_type ≠ n.recommendation_type ∨
        0.1 < |o.confidence_score - n.confidence_score|)) ∧
    (in_unchanged (compare_recommendations old_recs new_recs) s ↔
      ¬(o.recommendation_type ≠ n.recommendation_type ∨
        0.1 < |o.confidence_score - n.confidence_score|)) := by
  constructor
  · rw [in_changed_iff]
    constructor
    · rintro ⟨o1, n1, hlo1, hln1, hc1⟩
      rw [ho] at hlo1
      rw [hn] at hln1
      cases Option.some.inj hlo1
      cases Option.some.inj hln1
      simpa [is_changed_pair] using hc1
    · intro hcond
      exact ⟨o, n, ho, hn, by simpa [is_changed_pair] using hcond⟩
  · rw [in_unchanged_iff]
    constructor
    · rintro ⟨o1, n1, hlo1, hln1, hc1⟩
      rw [ho] at hlo1
      rw [hn] at hln1
      cases Option.some.inj hlo1
      cases Option.some.inj hln1
      simpa [is_changed_pair] using hc1
    · intro hcond
      exact ⟨o, n, ho, hn, by simpa [is_changed_pair] using hcond⟩

/-- Witness for C5 at the OGDC scenario: a 0.6 → 0.65 confidence move is
`unchanged`, a 0.6 → 0.75 move is `changed`. -/
theorem changed_iff_threshold_witness :
    in_unchanged (compare_recommendations [old_ogdc] [new_ogdc_65]) "OGDC" ∧
    in_changed (compare_recommendations [old_ogdc] [new_ogdc_75]) "OGDC" := by
  constructor
  · refine (changed_iff_threshold [old_ogdc] [new_ogdc_65] "OGDC"
      old_ogdc new_ogdc_65 rfl rfl).2.mpr ?_
    rintro (htype | hconf)
    · exact htype rfl
    · rw [show old_ogdc.confidence_score - new_ogdc_65.confidence_score =
        -(0.05 : ℚ) by norm_num [old_ogdc, new_ogdc_65]] at hconf
      rw [abs_neg, abs_of_nonneg (by norm_num)] at hconf
      norm_num at hconf
  · refine (changed_iff_threshold [old_ogdc] [new_ogdc_75] "OGDC"
      old_ogdc new_ogdc_75 rfl rfl).1.mpr ?_
    refine Or.inr ?_
    rw [show old_ogdc.confidence_score - new_ogdc_75.confidence_score =
      -(0.15 : ℚ) by norm_num [old_ogdc, new_ogdc_75]]
    rw [abs_neg, abs_of_nonneg (by norm_num)]
    norm_num

theorem risk_level_bins (x : ℚ) :
    (risk_level_of x = "low" ↔ x < 0.3) ∧
    (risk_level_of x = "moderate" ↔ 0.3 ≤ x ∧ x < 0.7) ∧
    (risk_level_of x = "high" ↔ 0.7 ≤ x) := by
  unfold risk_level_of
  split_ifs with h1 h2 <;>
    refine ⟨?_, ?_, ?_⟩ <;>
    simp_all <;>
    first
      | (constructor <;> linarith)
      | (intros; linarith)
      | linarith

/-- C10 counterexample: with a missing user profile, an empty trade
history and the portfolio `cex_portfolio` (total value 1, |P&L| 100), the
source computes an unclamped portfolio sub-score of 30.475 and a final
risk score of 1 (`high`), while the claim's formula — every sub-score
clamped to [0,1] before combination — yields 0.65 (`moderate`). -/
theorem risk_score_clamping_counterexample :
    calculate_comprehensive_risk_score none (analyze_investment_behavior [])
      (analyze_portfolio_risk (some cex_portfolio) []) = 1 ∧
    claimed_risk_score none (analyze_investment_behavior [])
      (analyze_portfolio_risk (some cex_portfolio) []) = 13 / 20 ∧
    (1 : ℚ) ≠ 13 / 20 ∧
    risk_level_of (calculate_comprehensive_risk_score none
      (analyze_investment_behavior [])
      (analyze_portfolio_risk (some cex_portfolio) [])) = "high" ∧
    risk_level_of (claimed_risk_score none (analyze_investment_behavior [])
      (analyze_portfolio_risk (some cex_portfolio) [])) = "moderate" := by
  have habs : |(100 : ℚ)| = 100 := abs_of_nonneg (by norm_num)
  have hpr : (analyze_portfolio_risk (some cex_portfolio) []).overall_portfolio_risk =
      30.475 := by
    simp only [analyze_portfolio_risk, cex_portfolio, sector_sums, List.filter_nil,
      List.foldl_nil]
    norm_num [habs]
  have hb : (analyze_investment_behavior []).behavior_score = 0.5 := rfl
  have hbase : base_risk_of none = 0.5 := rfl
  have hscore : calculate_comprehensive_risk_score none (analyze_investment_behavior [])
      (analyze_portfolio_risk (some cex_portfolio) []) = 1 := by
    simp only [calculate_comprehensive_risk_score, hpr, hb, hbase]
    norm_num [min_def, max_def]
  have hclaimed : claimed_risk_score none (analyze_investment_behavior [])
      (analyze_portfolio_risk (some cex_portfolio) []) = 13 / 20 := by
    simp only [claimed_risk_score, clamp01, hpr, hb, hbase]
    norm_num [min_def, max_def]
  refine ⟨hscore, hclaimed, by norm_num, ?_, ?_⟩
  · rw [hscore]
    norm_num [risk_level_of]
  · rw [hclaimed]
    norm_num [risk_level_of]

/-- C10 (amended): the risk score is the weighted blend
`0.3 × base + 0.4 × (1 − behavior score) + 0.3 × portfolio risk` of the
raw (unclamped) sub-scores, clamped to [0,1] only after combination; the
base risk follows the stated-tolerance table (low → 0.3, high → 0.8,
otherwise 0.5), and the final score is binned into low (< 0.3), moderate
([0.3, 0.7)) and high (≥ 0.7). -/
theorem risk_score_formula (up : Option UserProfile) (ba : BehaviorAnalysis)
    (pr : PortfolioRiskAnalysis) :
    calculate_comprehensive_risk_score up ba pr =
      min 1 (max 0 (0.3 * base_risk_of up + 0.4 * (1 - ba.behavior_score) +
        0.3 * pr.overall_portfolio_risk)) ∧
    0 ≤ calculate_comprehensive_risk_score up ba pr ∧
    calculate_comprehensive_risk_score up ba pr ≤ 1 ∧
    base_risk_of none = 0.5 ∧
    (∀ u : UserProfile, lower_str u.risk_tolerance = "low" →
      base_risk_of (some u) = 0.3) ∧
    (∀ u : UserProfile, lower_str u.risk_tolerance = "high" →
      base_risk_of (some u) = 0.8) ∧
    (∀ u : UserProfile, lower_str u.risk_tolerance ≠ "low" →
      lower_str u.risk_tolerance ≠ "high" → base_risk_of (some u) = 0.5) ∧
    (risk_level_of (calculate_comprehensive_risk_score up ba pr) = "low" ↔
      calculate_comprehensive_risk_score up ba pr < 0.3) ∧
    (risk_level_of (calculate_comprehensive_risk_score up ba pr) = "moderate" ↔
      0.3 ≤ calculate_comprehensive_risk_score up ba pr ∧
        calculate_comprehensive_risk_score up ba pr < 0.7) ∧
    (risk_level_of (calculate_comprehensive_risk_score up ba pr) = "high" ↔
      0.7 ≤ calculate_comprehensive_risk_score up ba pr) := by
  have hbins := risk_level_bins (calculate_comprehensive_risk_score up ba pr)
  refine ⟨?_, ?_, ?_, rfl, ?_, ?_, ?_, hbins.1, hbins.2.1, hbins.2.2⟩
  · simp only [calculate_comprehensive_risk_score]
    rw [min_comm, max_comm]
    ring_nf
  · simp only [calculate_comprehensive_risk_score]
    exact le_min (le_max_right _ _) (by norm_num)
  · simp only [calculate_comprehensive_risk_score]
    exact min_le_right _ _
  · intro u hu
    simp [base_risk_of, hu]
  · intro u hu
    simp [base_risk_of, hu]
  · intro u hu1 hu2
    simp [base_risk_of, hu1, hu2]

theorem analyze_stocks_node_preserves (env : Env) (st : PipelineState) :
    (analyze_stocks_node env st).stock_data = st.stock_data := by
  unfold analyze_stocks_node
  (repeat' split) <;> rfl

theorem scrape_news_node_preserves (env : Env) (st : PipelineState) :
    (scrape_news_node env st).stock_data = st.stock_data ∧
    (scrape_news_node env st).stock_analysis = st.stock_analysis := by
  unfold scrape_news_node
  (repeat' split) <;> exact ⟨rfl, rfl⟩

theorem analyze_news_node_preserves (env : Env) (st : PipelineState) :
    (analyze_news_node env st).stock_data = st.stock_data ∧
    (analyze_news_node env st).stock_analysis = st.stock_analysis ∧
    (analyze_news_node env st).news_data = st.news_data := by
  unfold analyze_news_node
  (repeat' split) <;> exact ⟨rfl, rfl, rfl⟩

theorem check_risk_node_preserves (env : Env) (st : PipelineState) :
    (check_risk_node env st).stock_data = st.stock_data ∧
    (check_risk_node env st).stock_analysis = st.stock_analysis ∧
    (check_risk_node env st).news_data = st.news_data ∧
    (check_risk_node env st).news_analysis = st.news_analysis := by
  unfold check_risk_node
  (repeat' split) <;> exact ⟨rfl, rfl, rfl, rfl⟩

theorem check_past_investments_node_preserves (env : Env) (st : PipelineState) :
    (check_past_investments_node env st).stock_data = st.stock_data ∧
    (check_past_investments_node env st).stock_analysis = st.stock_analysis ∧
    (check_past_investments_node env st).news_data = st.news_data ∧
    (check_past_investments_node env st).news_analysis = st.news_analysis ∧
    (check_past_investments_node env st).risk_profile = st.risk_profile := by
  unfold check_past_investments_node
  (repeat' split) <;> exact ⟨rfl, rfl, rfl, rfl, rfl⟩

theorem check_portfolio_node_preserves (env : Env) (st : PipelineState) :
    (check_portfolio_node env st).stock_data = st.stock_data ∧
    (check_portfolio_node env st).stock_analysis = st.stock_analysis ∧
    (check_portfolio_node env st).news_data = st.news_data ∧
    (check_portfolio_node env st).news_analysis = st.news_analysis ∧
    (check_portfolio_node env st).risk_profile = st.risk_profile ∧
    (check_portfolio_node env st).user_history = st.user_history := by
  unfold check_portfolio_node
  (repeat' split) <;> exact ⟨rfl, rfl, rfl, rfl, rfl, rfl⟩

theorem generate_recommendations_node_preserves (env : Env) (st : PipelineState) :
    (generate_recommendations_node env st).stock_data = st.stock_data ∧
    (generate_recommendations_node env st).stock_analysis = st.stock_analysis ∧
    (generate_recommendations_node env st).news_data = st.news_data ∧
    (generate_recommendations_node env st).news_analysis = st.news_analysis ∧
    (generate_recommendations_node env st).risk_profile = st.risk_profile ∧
    (generate_recommendations_node env st).user_history = st.user_history ∧
    (generate_recommendations_node env st).portfolio_update = st.portfolio_update := by
  unfold generate_recommendations_node
  (repeat' split) <;> exact ⟨rfl, rfl, rfl, rfl, rfl, rfl, rfl⟩

theorem handle_user_decision_node_preserves (env : Env) (st : PipelineState) :
    (handle_user_decision_node env st).stock_data = st.stock_data ∧
    (handle_user_decision_node env st).stock_analysis = st.stock_analysis ∧
    (handle_user_decision_node env st).news_data = st.news_data ∧
    (handle_user_decision_node env st).news_analysis = st.news_analysis ∧
    (handle_user_decision_node env st).risk_profile = st.risk_profile ∧
    (handle_user_decision_node env st).user_history = st.user_history ∧
    (handle_user_decision_node env st).portfolio_update = st.portfolio_update ∧
    (handle_user_decision_node env st).recommendations = st.recommendations := by
  unfold handle_user_decision_node
  (repeat' split) <;> exact ⟨rfl, rfl, rfl, rfl, rfl, rfl, rfl, rfl⟩

/-- C1 counterexample: in a run whose persistence call fails
(`persist_failure = some 0`, so `save_user_form_submission` catches the
raising INSERT and returns `False`), `run_workflow` still reports
`success = true` with no error message — a persistence failure does not
surface as an overall pipeline failure. -/
theorem persistence_failure_not_surfaced :
    (run_workflow env_c1 form0 "" (some "u1")).1.success = true ∧
    (run_workflow env_c1 form0 "" (some "u1")).1.error = none ∧
    (save_user_form_submission env_c1.persist_failure env_c1.db (some "u1")
      form0 (pipeline_run env_c1 (initial_state form0 "" (some "u1"))).recommendations).2
      = false :=
  ⟨rfl, rfl, rfl⟩

/-- C1 (amended): an internal failure inside any stage is caught at that
stage's boundary — the corresponding state field is set to the
stage-defined default and the run continues — and the overall result is
always `success = true` with no error; a persistence failure does not
surface either, because `save_user_form_submission` catches its own
exceptions and returns `False`, which `run_workflow` discards
(`success = false` could only arise from the workflow invocation
machinery itself, outside every modelled failure class). -/
theorem pipeline_stage_degradation (env : Env) (ui : FormData)
    (chat : String) (uid : Option String) :
    (run_workflow env ui chat uid).1.success = true ∧
    (run_workflow env ui chat uid).1.error = none ∧
    (env.scrape_stocks = .error () →
      (pipeline_run env (initial_state ui chat uid)).stock_data = []) ∧
    (env.analyze_stocks = .error () →
      (pipeline_run env (initial_state ui chat uid)).stock_analysis = []) ∧
    (env.scrape_news = .error () →
      (pipeline_run env (initial_state ui chat uid)).news_data = []) ∧
    (env.analyze_news = .error () →
      (pipeline_run env (initial_state ui chat uid)).news_analysis = []) ∧
    (env.check_risk = .error () →
      (pipeline_run env (initial_state ui chat uid)).risk_profile = none) ∧
    (env.check_history = .error () →
      (pipeline_run env (initial_state ui chat uid)).user_history = none) ∧
    (env.check_portfolio = .error () →
      (pipeline_run env (initial_state ui chat uid)).portfolio_update = none) ∧
    (env.generate_recs = .error () →
      (pipeline_run env (initial_state ui chat uid)).recommendations = []) ∧
    (env.handle_decision = .error () →
      (pipeline_run env (initial_state ui chat uid)).user_decision_results =
        some ⟨"error", 0⟩) := by
  refine ⟨rfl, rfl, ?_, ?_, ?_, ?_, ?_, ?_, ?_, ?_, ?_⟩ <;> intro h <;>
    simp only [pipeline_run, handle_user_decision_node_preserves,
      generate_recommendations_node_preserves, check_portfolio_node_preserves,
      check_past_investments_node_preserves, check_risk_node_preserves,
      analyze_news_node_preserves, scrape_news_node_preserves,
      analyze_stocks_node_preserves]
  · simp [scrape_stocks_node, h]
  · simp only [analyze_stocks_node, h]
    split <;> rfl
  · simp only [scrape_news_node, h]
    split <;> rfl
  · simp only [analyze_news_node, h]
    split <;> rfl
  · simp [check_risk_node, h]
  · simp [check_past_investments_node, h]
  · simp [check_portfolio_node, h]
  · simp [generate_recommendations_node, h]
  · simp [handle_user_decision_node, h]

theorem insert_recommendation_rows_complete (user_id : Option String)
    (form_id : ℕ) :
    ∀ (recs : List Recommendation) (k : ℕ) (db : DB),
      insert_recommendation_rows none k db user_id form_id recs =
        ({ db with user_recommendations_history :=
            db.user_recommendations_history ++
              recs.map (recommendation_row user_id form_id) }, true) := by
  intro recs
  induction recs with
  | nil => intro k db; simp [insert_recommendation_rows]
  | cons r rs ih =>
    intro k db
    rw [insert_recommendation_rows]
    simp only [reduceCtorEq, if_false]
    rw [ih]
    simp [List.append_assoc]

theorem insert_recommendation_rows_partial (fail_at : Option ℕ)
    (user_id : Option String) (form_id : ℕ) :
    ∀ (recs : List Recommendation) (k : ℕ) (db : DB),
      (insert_recommendation_rows fail_at k db user_id form_id recs).2 = false →
      ∃ j ≤ recs.length,
        (insert_recommendation_rows fail_at k db user_id form_id
            recs).1.user_recommendations_history =
          db.user_recommendations_history ++
            (recs.take j).map (recommendation_row user_id form_id) := by
  intro recs
  induction recs with
  | nil =>
    intro k db h
    rw [insert_recommendation_rows] at h
    simp at h
  | cons r rs ih =>
    intro k db h
    rw [insert_recommendation_rows] at h ⊢
    by_cases hf : fail_at = some k
    · rw [if_pos hf] at h ⊢
      exact ⟨0, by simp, by simp⟩
    · rw [if_neg hf] at h ⊢
      obtain ⟨j, hj, hrows⟩ := ih (k + 1) _ h
      refine ⟨j + 1, by simpa using hj, ?_⟩
      rw [hrows]
      simp [List.append_assoc]

theorem run_workflow_always_success (env : Env) (ui : FormData)
    (chat : String) (uid : Option String) :
    (run_workflow env ui chat uid).1.success = true := rfl

/-- C2 counterexample: in the run under `env_c2` the pipeline generates a
non-empty recommendation list, the submission INSERT commits, the first
recommendation INSERT raises, and the run ends with the submission row
committed, zero recommendation rows for it, and `success = true` — an
orphaned submission that is not reported as a persistence failure. -/
theorem orphaned_submission_counterexample :
    (pipeline_run env_c2 (initial_state form0 "" (some "u1"))).recommendations
      ≠ [] ∧
    (run_workflow env_c2 form0 "" (some "u1")).2.user_form_submissions.length
      = 1 ∧
    (run_workflow env_c2 form0 "" (some "u1")).2.user_recommendations_history
      = [] ∧
    (run_workflow env_c2 form0 "" (some "u1")).1.success = true := by
  refine ⟨?_, rfl, rfl, rfl⟩
  intro h
  simp [pipeline_run, env_c2, env_c1, initial_state, scrape_stocks_node,
    analyze_stocks_node, scrape_news_node, analyze_news_node, check_risk_node,
    check_past_investments_node, check_portfolio_node,
    generate_recommendations_node, handle_user_decision_node, stock_one,
    generate_recommendations, form0, a_one, List.insertionSort,
    List.orderedInsert] at h

/-- C2 (amended): the form submission and its recommendations are written
as individually committed statements, not one transaction.  When no
statement fails, the submission row and every recommendation row are
written and the call returns `True`; when a statement fails the call
returns `False` having kept whatever prefix of the recommendation rows
was already committed (possibly none, leaving an orphaned submission),
and the pipeline run is still reported as `success = true` — the failure
is never surfaced at the pipeline boundary. -/
theorem save_submission_nonatomic (fail_at : Option ℕ) (db : DB)
    (user_id : Option String) (form : FormData)
    (recs : List Recommendation) :
    (fail_at = none →
      (save_user_form_submission fail_at db user_id form recs).2 = true ∧
      (save_user_form_submission fail_at db user_id form
          recs).1.user_form_submissions =
        db.user_form_submissions ++
          [{ user_id := user_id, form_id := db.next_id, form := form
             recommendations_count := recs.length }] ∧
      (save_user_form_submission fail_at db user_id form
          recs).1.user_recommendations_history =
        db.user_recommendations_history ++
          recs.map (recommendation_row user_id db.next_id)) ∧
    ((save_user_form_submission fail_at db user_id form recs).2 = false →
      ∃ j ≤ recs.length,
        (save_user_form_submission fail_at db user_id form
            recs).1.user_recommendations_history =
          db.user_recommendations_history ++
            (recs.take j).map (recommendation_row user_id db.next_id)) ∧
    (∀ (env : Env) (ui : FormData) (chat : String) (uid : Option String),
      (run_workflow env ui chat uid).1.success = true) := by
  refine ⟨?_, ?_, fun env ui chat uid => run_workflow_always_success env ui chat uid⟩
  · rintro rfl
    rw [save_user_form_submission]
    simp only [reduceCtorEq, if_false]
    rw [insert_recommendation_rows_complete]
    exact ⟨rfl, rfl, rfl⟩
  · intro hfalse
    rw [save_user_form_submission] at hfalse ⊢
    by_cases h0 : fail_at = some 0
    · rw [if_pos h0] at hfalse ⊢
      exact ⟨0, by simp, by simp⟩
    · rw [if_neg h0] at hfalse ⊢
      by_cases h1 : fail_at = some 1
      · rw [if_pos h1] at hfalse ⊢
        exact ⟨0, by simp, by simp⟩
      · rw [if_neg h1] at hfalse ⊢
        obtain ⟨j, hj, hrows⟩ :=
          insert_recommendation_rows_partial fail_at user_id db.next_id recs 2 _ hfalse
        exact ⟨j, hj, hrows⟩
